import Mathlib

/-!
ffmpeg-audio-convert: a shallow embedding of `src/main.c`

The program is one `main` that drives the multimedia framework (libavformat,
libavcodec, libswresample).  The framework is an external collaborator, so its
calls are not re-implemented here: a `Framework` value fixes, for one run, what
every framework call answers, and `main` is embedded as a total function of
that value and of `argv`.  A run is the exit code, the lines printed, and the
trace of framework calls in program order (the constructors of `Op` carry the C
function names).  Resources are read off the trace by `Op.acquires` and
`Op.releases`.

Modelling decisions, all on the side of the C text:

* every `return 1` of `main` is a leaf `die msg`; no teardown is emitted there
  because the C text performs none;
* a loop `while (f(...) >= 0)` or `while (f(...) == 0)` iterates over the list of
  successful answers the framework gives; the end of the list is the answer that
  leaves the loop, so every run is finite;
* the loop counter `int i` of lines 64-69 is a natural number (a stream array long
  enough to wrap it cannot be allocated);
* `av_frame_alloc` is taken to succeed (the C text dereferences its result
  unchecked), and `av_channel_layout_copy` is the assignment of the layout;
* calls whose result the C text ignores (`swr_convert_frame`, `av_write_trailer`,
  `av_channel_layout_copy`, `avcodec_parameters_from_context`) never influence
  control flow; `swr_convert_frame` may overwrite the sample count of the
  destination frame and nothing else of it;
* `av_packet_rescale_ts` is framework code that is not in this repository; it is
  modelled from the spec's description of time bases and rescaling (exact integers,
  rounding to the nearest).

The file has three parts: the embedding (data, `main`), the vocabulary used to state
properties, and the theorems.  Line numbers refer to `src/main.c`.
-/

namespace AudioConvert

/-! ## Framework data -/

/-- Media type of a stream (enum AVMediaType). -/
inductive AVMediaType
  | unknown | video | audio | data | subtitle | attachment
  deriving DecidableEq, Repr, Inhabited

/-- Rational time base (AVRational). -/
structure AVRational where
  num : Int
  den : Int
  deriving DecidableEq, Repr, Inhabited

/-- Channel layout (AVChannelLayout), an uninterpreted value that is only copied. -/
structure AVChannelLayout where
  order : Nat
  nb_channels : Int
  mask : Nat
  deriving DecidableEq, Repr, Inhabited

/-- Codec parameters of a stream (AVCodecParameters), the fields `main` reads. -/
structure AVCodecParameters where
  codec_type : AVMediaType
  codec_id : Nat
  format : Int
  sample_rate : Int
  ch_layout : AVChannelLayout
  deriving DecidableEq, Repr, Inhabited

/-- Input stream (AVStream), the field `main` reads. -/
structure AVStream where
  codecpar : AVCodecParameters
  deriving DecidableEq, Repr, Inhabited

/-- Codec descriptor (AVCodec).  The list `sample_fmts` stands for the C array,
which is terminated by AV_SAMPLE_FMT_NONE = -1. -/
structure AVCodec where
  id : Nat
  sample_fmts : List Int
  deriving DecidableEq, Repr, Inhabited

/-- Output container format (AVOutputFormat), the fields `main` reads. -/
structure AVOutputFormat where
  audio_codec : Nat
  flags : Nat
  deriving DecidableEq, Repr, Inhabited

/-- Codec context (AVCodecContext), the fields `main` reads or writes. -/
structure AVCodecContext where
  sample_rate : Int
  ch_layout : AVChannelLayout
  sample_fmt : Int
  bit_rate : Int
  time_base : AVRational
  deriving DecidableEq, Repr, Inhabited

/-- Raw frame (AVFrame), the fields `main` reads or writes. -/
structure AVFrame where
  sample_rate : Int
  format : Int
  nb_samples : Int
  ch_layout : AVChannelLayout
  deriving DecidableEq, Repr, Inhabited

/-- Coded packet (AVPacket); `data` names the payload. -/
structure AVPacket where
  stream_index : Int
  pts : Int
  dts : Int
  duration : Int
  data : Nat
  deriving DecidableEq, Repr, Inhabited

/-- Flag AVFMT_NOFILE of AVOutputFormat.flags. -/
def AVFMT_NOFILE : Nat := 1

/-- The two codec-context variables of `main`. -/
inductive CtxVar
  | input_codec_ctx | output_codec_ctx
  deriving DecidableEq, Repr

/-- The two frame variables of `main`. -/
inductive FrameVar
  | frame | resampled_frame
  deriving DecidableEq, Repr

/-! ## Framework answers for one run -/

/-- One packet the encoder yields (line 195) and the answer of the write at line 198. -/
structure EncOut where
  pkt : AVPacket
  write_ok : Bool
  deriving DecidableEq, Repr

/-- One frame the decoder yields (line 174) and the answers of the calls made for it:
`av_frame_get_buffer` (181), `swr_convert_frame` (186: its return value and the
sample count it leaves in the destination frame), `avcodec_send_frame` (190) and
the packets the encoder then yields. -/
structure DecOut where
  frame : AVFrame
  get_buffer_ok : Bool
  convert_ret : Int
  converted_samples : Int
  send_frame_ok : Bool
  packets : List EncOut
  deriving DecidableEq, Repr

/-- One packet `av_read_frame` returns (line 167), the answer of
`avcodec_send_packet` (169) should it be submitted, and the frames the decoder
then yields. -/
structure ReadOut where
  pkt : AVPacket
  send_packet_ok : Bool
  frames : List DecOut
  deriving DecidableEq, Repr

/-- What the framework answers during one run, call site by call site. -/
structure Framework where
  /-- line 53: success of avformat_open_input -/
  avformat_open_input : Bool
  /-- line 58: success of avformat_find_stream_info -/
  avformat_find_stream_info : Bool
  /-- the array input_ctx->streams once probed -/
  streams : List AVStream
  /-- line 78 -/
  avcodec_find_decoder : Nat → Option AVCodec
  /-- line 84: the fresh decoder context, or none -/
  alloc_input_codec_ctx : Option AVCodecContext
  /-- line 90 -/
  avcodec_parameters_to_context : AVCodecContext → AVCodecParameters → Option AVCodecContext
  /-- line 95: the decoder context as opened, or none -/
  open_input_codec : AVCodecContext → Option AVCodecContext
  /-- line 101: the oformat of the allocated output context, or none -/
  avformat_alloc_output_context2 : String → Option AVOutputFormat
  /-- line 17 -/
  av_guess_format : String → Option AVOutputFormat
  /-- line 24 -/
  avcodec_find_encoder : Nat → Option AVCodec
  /-- line 112: the index of the new output stream, or none -/
  avformat_new_stream : Option Int
  /-- line 118: the fresh encoder context, or none -/
  alloc_output_codec_ctx : Option AVCodecContext
  /-- line 133: the encoder context as opened, or none -/
  open_output_codec : AVCodecContext → Option AVCodecContext
  /-- line 141: success of avio_open -/
  avio_open : Bool
  /-- line 147: the time base of out_stream once the header is written, or none -/
  avformat_write_header : Option AVRational
  /-- line 153: success (return value 0) of swr_alloc_set_opts2 -/
  swr_alloc_set_opts2 : Bool
  /-- line 157: success of the first swr_init -/
  swr_init : Bool
  /-- line 162: success of the second swr_init -/
  swr_init_again : Bool
  /-- line 167: the packets av_read_frame returns before its first negative answer -/
  reads : List ReadOut

/-! ## Traces and runs -/

/-- Framework calls, with the arguments and answers the claims speak about. -/
inductive Op
  | avformat_open_input (filename : String) (ok : Bool)
  | avformat_find_stream_info (ok : Bool)
  | avcodec_find_decoder (codec_id : Nat) (found : Bool)
  | avcodec_alloc_context3 (v : CtxVar) (ok : Bool)
  | avcodec_parameters_to_context (ok : Bool)
  | avcodec_open2 (v : CtxVar) (ctx : AVCodecContext) (opened : Option AVCodecContext)
  | avformat_alloc_output_context2 (filename : String) (ok : Bool)
  | av_guess_format (filename : String) (found : Bool)
  | avcodec_find_encoder (codec_id : Nat) (found : Bool)
  | avformat_new_stream (index : Option Int)
  | av_channel_layout_copy (src : AVChannelLayout)
  | avcodec_parameters_from_context
  | avio_open (filename : String) (ok : Bool)
  | avformat_write_header (time_base : Option AVRational)
  | av_frame_alloc (v : FrameVar)
  | swr_alloc_set_opts2 (out_layout : AVChannelLayout) (out_fmt out_rate : Int)
      (in_layout : AVChannelLayout) (in_fmt in_rate : Int) (ok : Bool)
  | swr_init (ok : Bool)
  | av_read_frame (pkt : Option AVPacket)
  | avcodec_send_packet (pkt : AVPacket) (ok : Bool)
  | avcodec_receive_frame (frame : Option AVFrame)
  | av_frame_get_buffer (dst : AVFrame) (ok : Bool)
  | swr_convert_frame (dst src : AVFrame) (ret : Int)
  | av_packet_unref
  | avcodec_send_frame (frame : AVFrame) (ok : Bool)
  | avcodec_receive_packet (pkt : Option AVPacket)
  | av_packet_rescale_ts (pkt : AVPacket) (src_tb dst_tb : AVRational)
  | av_interleaved_write_frame (pkt : AVPacket) (ok : Bool)
  | av_frame_free (v : FrameVar)
  | av_write_trailer
  | avcodec_free_context (v : CtxVar)
  | avformat_close_input
  | avio_closep
  | avformat_free_context
  | swr_free
  deriving DecidableEq, Repr

/-- Outcome of a run of `main`. -/
structure Run where
  trace : List Op
  exit : Int
  stderr : List String
  stdout : List String
  deriving DecidableEq, Repr

/-- Perform one framework call, then continue with `k`. -/
def call (op : Op) (k : Run) : Run :=
  { k with trace := op :: k.trace }

/-- Print `msg` to the error stream and `return 1`. -/
def die (msg : String) : Run :=
  { trace := [], exit := 1, stderr := [msg], stdout := [] }

/-- Print `msg` to the standard output (printf), then continue with `k`. -/
def say (msg : String) (k : Run) : Run :=
  { k with stdout := msg :: k.stdout }

/-! ## The C library function atoi -/

/-- C isspace in the "C" locale: space, and \t \n \v \f \r. -/
def isspace (c : Char) : Bool :=
  c.toNat = 32 || (9 ≤ c.toNat && c.toNat ≤ 13)

/-- C isdigit. -/
def isdigit (c : Char) : Bool :=
  48 ≤ c.toNat && c.toNat ≤ 57

/-- Value of the longest prefix of decimal digits, accumulated left to right. -/
def digits_value : Nat → List Char → Nat
  | acc, [] => acc
  | acc, c :: cs => if isdigit c then digits_value (acc * 10 + (c.toNat - 48)) cs else acc

/-- Saturation of strtol to the range of a 64-bit long. -/
def clamp_long (v : Int) : Int :=
  if v < -(2 ^ 63) then -(2 ^ 63) else if 2 ^ 63 - 1 < v then 2 ^ 63 - 1 else v

/-- Conversion of a long to a 32-bit int (two's complement truncation). -/
def to_int (v : Int) : Int :=
  (v + 2 ^ 31) % 2 ^ 32 - 2 ^ 31

/-- The function atoi: skip white space, read one optional sign, read decimal digits.
A value outside the range of int is undefined in ISO C; the embedding follows glibc,
where atoi is strtol (saturating) cast to int. -/
def atoi (s : String) : Int :=
  let v : Int :=
    match s.data.dropWhile isspace with
    | [] => 0
    | c :: r =>
      if c = '-' then - (digits_value 0 r : Int)
      else if c = '+' then (digits_value 0 r : Int)
      else (digits_value 0 (c :: r) : Int)
  to_int (clamp_long v)

/-! ## The framework function av_packet_rescale_ts -/

/-- Modelled from the spec: the rounding inside the framework's timestamp rescaling,
whose code (libavutil) is not in this repository.  The value a * b / c for 0 ≤ b and
0 < c, rounded to the nearest integer, halves away from zero; the spec fixes no
rounding, the nearest integer is what keeps "converts a timestamp" closest to exact. -/
def rescale_near_inf (a b c : Int) : Int :=
  if 0 ≤ a then (a * b + c / 2) / c else -(((-a) * b + c / 2) / c)

/-- Modelled from the spec: the framework function av_packet_rescale_ts called at line
196, whose code (libavcodec) is not in this repository.  The spec's glossary: a time
base is "the unit fraction in which a stream's timestamps are expressed; rescaling
converts a timestamp from one stream's time base to another's".  A timestamp t in time
base bq denotes the instant t * bq, which in time base cq is t * bq / cq, that is
t * (bq.num * cq.den) / (cq.num * bq.den), rounded; every timing field of the packet
is converted, nothing else of the packet changes. -/
def av_packet_rescale_ts (p : AVPacket) (bq cq : AVRational) : AVPacket :=
  { p with
    pts := rescale_near_inf p.pts (bq.num * cq.den) (cq.num * bq.den)
    dts := rescale_near_inf p.dts (bq.num * cq.den) (cq.num * bq.den)
    duration := rescale_near_inf p.duration (bq.num * cq.den) (cq.num * bq.den) }

/-! ## main -/

/-- Lines 63-69: the loop that selects audio_stream_index, started at index `i`;
-1 when no stream is audio. -/
def find_audio_stream : List AVStream → Nat → Int
  | [], _ => -1
  | s :: rest, i =>
    if s.codecpar.codec_type = AVMediaType.audio then (i : Int)
    else find_audio_stream rest (i + 1)

/-- Local variables of `main` that are live in the transcode loop. -/
structure Pipeline where
  audio_stream_index : Int
  output_codec_ctx : AVCodecContext
  out_stream_index : Int
  out_stream_time_base : AVRational
  oformat : AVOutputFormat
  deriving DecidableEq, Repr

/-- Lines 15-31: guess_codec_from_extension, continuing with its return value. -/
def guess_codec_from_extension (fw : Framework) (filename : String)
    (k : Option AVCodec → Run) : Run :=
  call (.av_guess_format filename (fw.av_guess_format filename).isSome) <|
  match fw.av_guess_format filename with
  | none => say "Could not guess format.\n" (k none)
  | some fmt =>
    call (.avcodec_find_encoder fmt.audio_codec (fw.avcodec_find_encoder fmt.audio_codec).isSome) <|
    match fw.avcodec_find_encoder fmt.audio_codec with
    | none => say "Could not find audio codec.\n" (k none)
    | some codec => k (some codec)

/-- Lines 209-221: trailer, teardown, `return 0`. -/
def teardown (ctx : Pipeline) : Run :=
  call .av_write_trailer <|
  call (.avcodec_free_context .input_codec_ctx) <|
  call (.avcodec_free_context .output_codec_ctx) <|
  call .avformat_close_input <|
  (if ctx.oformat.flags &&& AVFMT_NOFILE = 0 then call .avio_closep else id) <|
  call .avformat_free_context <|
  call (.av_frame_free .frame) <|
  call .swr_free <|
  { trace := [], exit := 0, stderr := [], stdout := [] }

/-- Lines 195-202: drain the encoder, rescale, re-index and write each packet;
`k` is the rest of the run after the loop is left normally. -/
def write_packets (fw : Framework) (ctx : Pipeline) : List EncOut → Run → Run
  | [], k => call (.avcodec_receive_packet none) k
  | e :: rest, k =>
    call (.avcodec_receive_packet (some e.pkt)) <|
    call (.av_packet_rescale_ts e.pkt ctx.output_codec_ctx.time_base ctx.out_stream_time_base) <|
    let pkt := av_packet_rescale_ts e.pkt ctx.output_codec_ctx.time_base ctx.out_stream_time_base
    let pkt := { pkt with stream_index := ctx.out_stream_index }
    call (.av_interleaved_write_frame pkt e.write_ok) <|
    if !e.write_ok then die "Error while writing output packet\n"
    else write_packets fw ctx rest k

/-- Lines 174-204: drain the decoder; for each frame build the destination frame,
convert, submit to the encoder, write the packets, free the destination frame. -/
def convert_frames (fw : Framework) (ctx : Pipeline) : List DecOut → Run → Run
  | [], k => call (.avcodec_receive_frame none) k
  | d :: rest, k =>
    call (.avcodec_receive_frame (some d.frame)) <|
    call (.av_frame_alloc .resampled_frame) <|
    let resampled_frame : AVFrame :=
      { sample_rate := ctx.output_codec_ctx.sample_rate
        format := ctx.output_codec_ctx.sample_fmt
        nb_samples := d.frame.nb_samples
        ch_layout := ctx.output_codec_ctx.ch_layout }
    call (.av_channel_layout_copy ctx.output_codec_ctx.ch_layout) <|
    call (.av_frame_get_buffer resampled_frame d.get_buffer_ok) <|
    if !d.get_buffer_ok then die "Could not allocate audio buffer\n" else
    -- line 186: the return value is dropped
    call (.swr_convert_frame resampled_frame d.frame d.convert_ret) <|
    let resampled_frame := { resampled_frame with nb_samples := d.converted_samples }
    call .av_packet_unref <|
    call (.avcodec_send_frame resampled_frame d.send_frame_ok) <|
    if !d.send_frame_ok then die "Error sending frame to encoder\n" else
    write_packets fw ctx d.packets <|
    call (.av_frame_free .resampled_frame) <|
    convert_frames fw ctx rest k

/-- Lines 167-221: the read loop, followed by the trailer and the teardown. -/
def transcode (fw : Framework) (ctx : Pipeline) : List ReadOut → Run
  | [] => call (.av_read_frame none) (teardown ctx)
  | r :: rest =>
    call (.av_read_frame (some r.pkt)) <|
    if r.pkt.stream_index = ctx.audio_stream_index then
      call (.avcodec_send_packet r.pkt r.send_packet_ok) <|
      if !r.send_packet_ok then die "Error sending packet to decoder\n" else
      convert_frames fw ctx r.frames <|
      call .av_packet_unref <|
      transcode fw ctx rest
    else
      call .av_packet_unref <|
      transcode fw ctx rest

/-- Lines 53-98 of main (Input Resolver): open and probe the input, select the audio
stream, find and open its decoder; `k` is the rest of main, given audio_stream_index,
codec_params and the opened input_codec_ctx. -/
def open_input (fw : Framework) (input_filename : String)
    (k : Int → AVCodecParameters → AVCodecContext → Run) : Run :=
  call (.avformat_open_input input_filename fw.avformat_open_input) <|
  if !fw.avformat_open_input then
    die ("Could not open input file " ++ input_filename ++ "\n") else
  call (.avformat_find_stream_info fw.avformat_find_stream_info) <|
  if !fw.avformat_find_stream_info then
    die ("Could not find stream info in " ++ input_filename ++ "\n") else
  let audio_stream_index := find_audio_stream fw.streams 0
  if audio_stream_index = -1 then
    die ("Could not find audio stream in " ++ input_filename ++ "\n") else
  let in_stream := fw.streams.getD audio_stream_index.toNat default
  let codec_params := in_stream.codecpar
  call (.avcodec_find_decoder codec_params.codec_id
    (fw.avcodec_find_decoder codec_params.codec_id).isSome) <|
  match fw.avcodec_find_decoder codec_params.codec_id with
  | none => die "Unsupported codec!\n"
  | some _input_codec =>
  call (.avcodec_alloc_context3 .input_codec_ctx fw.alloc_input_codec_ctx.isSome) <|
  match fw.alloc_input_codec_ctx with
  | none => die "Could not allocate audio codec context\n"
  | some fresh_input_ctx =>
  call (.avcodec_parameters_to_context
    (fw.avcodec_parameters_to_context fresh_input_ctx codec_params).isSome) <|
  match fw.avcodec_parameters_to_context fresh_input_ctx codec_params with
  | none => die "Could not copy codec parameters to context\n"
  | some filled_input_ctx =>
  call (.avcodec_open2 .input_codec_ctx filled_input_ctx
    (fw.open_input_codec filled_input_ctx)) <|
  match fw.open_input_codec filled_input_ctx with
  | none => die "Could not open codec\n"
  | some input_codec_ctx => k audio_stream_index codec_params input_codec_ctx

/-- Lines 124-131 of main: the encoder context as configured before it is opened. -/
def configure_encoder (fresh_output_ctx : AVCodecContext) (output_sample_rate : Int)
    (input_codec_ctx : AVCodecContext) (output_codec : AVCodec) : AVCodecContext :=
  let output_codec_ctx := { fresh_output_ctx with sample_rate := output_sample_rate }
  let output_codec_ctx := { output_codec_ctx with ch_layout := input_codec_ctx.ch_layout }
  let output_codec_ctx :=
    { output_codec_ctx with sample_fmt := output_codec.sample_fmts.headD (-1) }
  { output_codec_ctx with bit_rate := 64000 }

/-- Lines 100-150 of main (Output Resolver): allocate the output context, choose the
encoder, create the stream, configure and open the encoder, open the sink, write the
header; `k` is the rest of main, given the output format, out_stream->index, the
opened output_codec_ctx and out_stream->time_base. -/
def open_output (fw : Framework) (output_filename : String) (output_sample_rate : Int)
    (input_codec_ctx : AVCodecContext)
    (k : AVOutputFormat → Int → AVCodecContext → AVRational → Run) : Run :=
  call (.avformat_alloc_output_context2 output_filename
    (fw.avformat_alloc_output_context2 output_filename).isSome) <|
  match fw.avformat_alloc_output_context2 output_filename with
  | none => die "Could not create output context\n"
  | some oformat =>
  guess_codec_from_extension fw output_filename fun
  | none => { trace := [], exit := 1, stderr := [], stdout := [] }
  | some output_codec =>
  call (.avformat_new_stream fw.avformat_new_stream) <|
  match fw.avformat_new_stream with
  | none => die "Failed to allocate output stream\n"
  | some out_stream_index =>
  call (.avcodec_alloc_context3 .output_codec_ctx fw.alloc_output_codec_ctx.isSome) <|
  match fw.alloc_output_codec_ctx with
  | none => die "Could not allocate audio codec context\n"
  | some fresh_output_ctx =>
  call (.av_channel_layout_copy input_codec_ctx.ch_layout) <|
  let output_codec_ctx :=
    configure_encoder fresh_output_ctx output_sample_rate input_codec_ctx output_codec
  call (.avcodec_open2 .output_codec_ctx output_codec_ctx
    (fw.open_output_codec output_codec_ctx)) <|
  match fw.open_output_codec output_codec_ctx with
  | none => die "Could not open codec\n"
  | some output_codec_ctx =>
  call .avcodec_parameters_from_context <|
  (fun k : Run =>
    if oformat.flags &&& AVFMT_NOFILE = 0 then
      call (.avio_open output_filename fw.avio_open) <|
      if !fw.avio_open then die "Could not open output file\n" else k
    else k) <|
  call (.avformat_write_header fw.avformat_write_header) <|
  match fw.avformat_write_header with
  | none => die "Error occurred when opening output file\n"
  | some out_stream_time_base =>
    k oformat out_stream_index output_codec_ctx out_stream_time_base

/-- Lines 152-165 of main: allocate the decoded frame and build the conversion context
from the encoder context and the input codec parameters; `k` is the rest of main. -/
def init_resampler (fw : Framework) (output_codec_ctx : AVCodecContext)
    (codec_params : AVCodecParameters) (k : Run) : Run :=
  call (.av_frame_alloc .frame) <|
  call (.swr_alloc_set_opts2 output_codec_ctx.ch_layout output_codec_ctx.sample_fmt
    output_codec_ctx.sample_rate codec_params.ch_layout codec_params.format
    codec_params.sample_rate fw.swr_alloc_set_opts2) <|
  if !fw.swr_alloc_set_opts2 then
    die "Failed to initialize the resampling context\n" else
  call (.swr_init fw.swr_init) <|
  if !fw.swr_init then
    die "Failed to initialize the resampling context\n" else
  -- line 162: swr_ctx is non-null here, so swr_init runs a second time
  call (.swr_init fw.swr_init_again) <|
  if !fw.swr_init_again then
    die "Failed to initialize the resampling context\n" else
  k

/-- Lines 33-222: main.  `argv` holds the program name and the arguments, so argc
is its length. -/
def main (fw : Framework) (argv : List String) : Run :=
  if argv.length ≠ 4 then
    die ("Usage: " ++ argv.getD 0 "(null)" ++ " <input file> <sample rate> <output file>\n")
  else
  let input_filename := argv.getD 1 ""
  let output_sample_rate := atoi (argv.getD 2 "")
  let output_filename := argv.getD 3 ""
  open_input fw input_filename fun audio_stream_index codec_params input_codec_ctx =>
  open_output fw output_filename output_sample_rate input_codec_ctx
    fun oformat out_stream_index output_codec_ctx out_stream_time_base =>
  init_resampler fw output_codec_ctx codec_params <|
  transcode fw
    { audio_stream_index := audio_stream_index
      output_codec_ctx := output_codec_ctx
      out_stream_index := out_stream_index
      out_stream_time_base := out_stream_time_base
      oformat := oformat } fw.reads

/-! ## Specification vocabulary -/

/-- Drop one optional sign character. -/
def strip_sign : List Char → List Char
  | [] => []
  | c :: r => if c = '-' ∨ c = '+' then r else c :: r

/-- The decimal digits that lead the argument once white space and one optional sign
are skipped. -/
def leading_digits (s : String) : List Char :=
  (strip_sign (s.data.dropWhile isspace)).takeWhile isdigit

/-- An argument is not numeric when it has no leading decimal digits after optional
white space and sign. -/
def non_numeric (s : String) : Prop :=
  leading_digits s = []

instance (s : String) : Decidable (non_numeric s) :=
  inferInstanceAs (Decidable (leading_digits s = []))

/-- The handles of a run, named after the variables of main that hold them: input
container, output container, decoder context, encoder context, output I/O sink
(output_ctx->pb), decoded frame, adapted frame, resampling context. -/
inductive Resource
  | input_ctx | output_ctx | input_codec_ctx | output_codec_ctx | output_pb
  | frame | resampled_frame | swr_ctx
  deriving DecidableEq, Repr

/-- The handle a codec-context variable holds. -/
def CtxVar.resource : CtxVar → Resource
  | .input_codec_ctx => .input_codec_ctx
  | .output_codec_ctx => .output_codec_ctx

/-- The handle a frame variable holds. -/
def FrameVar.resource : FrameVar → Resource
  | .frame => .frame
  | .resampled_frame => .resampled_frame

/-- The handle a framework call creates, if any. -/
def Op.acquires : Op → Option Resource
  | .avformat_open_input _ true => some .input_ctx
  | .avcodec_alloc_context3 v true => some v.resource
  | .avformat_alloc_output_context2 _ true => some .output_ctx
  | .avio_open _ true => some .output_pb
  | .av_frame_alloc v => some v.resource
  | .swr_alloc_set_opts2 _ _ _ _ _ _ true => some .swr_ctx
  | _ => none

/-- The handle a framework call destroys, if any. -/
def Op.releases : Op → Option Resource
  | .av_frame_free v => some v.resource
  | .avcodec_free_context v => some v.resource
  | .avformat_close_input => some .input_ctx
  | .avio_closep => some .output_pb
  | .avformat_free_context => some .output_ctx
  | .swr_free => some .swr_ctx
  | _ => none

/-- The live handles, and the number of releases that found no live handle (a handle
released twice, or released before it was acquired). -/
structure Ledger where
  live : List Resource
  faults : Nat
  deriving DecidableEq, Repr

/-- Account for one call: first its release, then its acquisition. -/
def Ledger.step (l : Ledger) (op : Op) : Ledger :=
  let l1 : Ledger :=
    match op.releases with
    | some r =>
      if r ∈ l.live then { l with live := l.live.erase r }
      else { l with faults := l.faults + 1 }
    | none => l
  match op.acquires with
  | some r => { l1 with live := r :: l1.live }
  | none => l1

/-- The ledger at the end of a trace that starts with no live handle. -/
def ledger (t : List Op) : Ledger :=
  t.foldl Ledger.step { live := [], faults := 0 }

/-- A call that releases no long-lived handle (it releases nothing, or an adapted
frame). -/
def Op.keeps_handles (op : Op) : Prop :=
  op.releases = none ∨ op.releases = some .resampled_frame

instance (op : Op) : Decidable op.keeps_handles :=
  inferInstanceAs (Decidable (_ ∨ _))

/-- The call that writes the container header (line 147). -/
def Op.is_header : Op → Bool
  | .avformat_write_header _ => true
  | _ => false

/-- The call that writes the container trailer (line 209). -/
def Op.is_trailer : Op → Bool
  | .av_write_trailer => true
  | _ => false

/-- A packet read, a decode, an encode or a packet write. -/
def Op.is_packet_op : Op → Bool
  | .av_read_frame _ => true
  | .avcodec_send_packet _ _ => true
  | .avcodec_receive_frame _ => true
  | .avcodec_send_frame _ _ => true
  | .avcodec_receive_packet _ => true
  | .av_interleaved_write_frame _ _ => true
  | _ => false

/-- The packets handed to av_interleaved_write_frame, in trace order. -/
def written_packets (t : List Op) : List AVPacket :=
  t.filterMap fun
    | .av_interleaved_write_frame p _ => some p
    | _ => none

/-- The packets avcodec_receive_packet yielded, in trace order. -/
def yielded_packets (t : List Op) : List AVPacket :=
  t.filterMap fun
    | .avcodec_receive_packet (some p) => some p
    | _ => none

/-- A time base that is a positive rational. -/
def AVRational.positive (q : AVRational) : Prop :=
  0 < q.num ∧ 0 < q.den

instance (q : AVRational) : Decidable q.positive :=
  inferInstanceAs (Decidable (0 < q.num ∧ 0 < q.den))

/-! ## Further vocabulary: shapes of runs and loop invariants -/

/-- The run `r` preceded by the calls `pre`. -/
def Run.after (pre : List Op) (r : Run) : Run :=
  { r with trace := pre ++ r.trace }

/-- The calls of lines 53-98 when all of them succeed. -/
def input_ops (name : String) (codec_id : Nat) (filled ctx : AVCodecContext) : List Op :=
  [ .avformat_open_input name true, .avformat_find_stream_info true,
    .avcodec_find_decoder codec_id true, .avcodec_alloc_context3 .input_codec_ctx true,
    .avcodec_parameters_to_context true,
    .avcodec_open2 .input_codec_ctx filled (some ctx) ]

/-- The calls of lines 101-133 when those before the encoder is opened succeed;
`opened` is the answer of avcodec_open2. -/
def output_ops (name : String) (audio_codec : Nat) (index : Int) (dec cfg : AVCodecContext)
    (opened : Option AVCodecContext) : List Op :=
  [ .avformat_alloc_output_context2 name true, .av_guess_format name true,
    .avcodec_find_encoder audio_codec true, .avformat_new_stream (some index),
    .avcodec_alloc_context3 .output_codec_ctx true, .av_channel_layout_copy dec.ch_layout,
    .avcodec_open2 .output_codec_ctx cfg opened ]

/-- The call of line 141, made unless the format has AVFMT_NOFILE. -/
def sink_ops (oformat : AVOutputFormat) (name : String) (ok : Bool) : List Op :=
  if oformat.flags &&& AVFMT_NOFILE = 0 then [.avio_open name ok] else []

/-- The run that `return 1` yields at line 109, after guess_codec_from_extension has
printed `msg` with printf. -/
def quit_after_printf (msg : String) : Run :=
  { trace := [], exit := 1, stderr := [], stdout := [msg] }

/-- The calls of lines 152-162 when all of them succeed. -/
def resampler_ops (enc : AVCodecContext) (params : AVCodecParameters) : List Op :=
  [ .av_frame_alloc .frame,
    .swr_alloc_set_opts2 enc.ch_layout enc.sample_fmt enc.sample_rate params.ch_layout
      params.format params.sample_rate true,
    .swr_init true, .swr_init true ]

/-- Every shape a run of main can have when argc is 4.  The parameters are the local
variables input_filename, output_sample_rate, output_filename, audio_stream_index and
codec_params.  One constructor per `return` of main: lines 55, 60, 73, 81, 87, 92, 97,
104, 109 (twice), 115, 121, 135, 143, 149, 159 (twice), 164 and 221. -/
inductive Outcome (fw : Framework) (name_in : String) (rate : Int) (name_out : String)
    (idx : Int) (params : AVCodecParameters) : Run → Prop
  | open_failed : Outcome fw name_in rate name_out idx params
      (Run.after [.avformat_open_input name_in false]
        (die ("Could not open input file " ++ name_in ++ "\n")))
  | probe_failed : Outcome fw name_in rate name_out idx params
      (Run.after [.avformat_open_input name_in true, .avformat_find_stream_info false]
        (die ("Could not find stream info in " ++ name_in ++ "\n")))
  | no_audio_stream (h : idx = -1) : Outcome fw name_in rate name_out idx params
      (Run.after [.avformat_open_input name_in true, .avformat_find_stream_info true]
        (die ("Could not find audio stream in " ++ name_in ++ "\n")))
  | no_decoder (h : idx ≠ -1) : Outcome fw name_in rate name_out idx params
      (Run.after
        [.avformat_open_input name_in true, .avformat_find_stream_info true,
         .avcodec_find_decoder params.codec_id false]
        (die "Unsupported codec!\n"))
  | decoder_alloc_failed (h : idx ≠ -1) : Outcome fw name_in rate name_out idx params
      (Run.after
        [.avformat_open_input name_in true, .avformat_find_stream_info true,
         .avcodec_find_decoder params.codec_id true,
         .avcodec_alloc_context3 .input_codec_ctx false]
        (die "Could not allocate audio codec context\n"))
  | parameters_failed (h : idx ≠ -1) : Outcome fw name_in rate name_out idx params
      (Run.after
        [.avformat_open_input name_in true, .avformat_find_stream_info true,
         .avcodec_find_decoder params.codec_id true,
         .avcodec_alloc_context3 .input_codec_ctx true,
         .avcodec_parameters_to_context false]
        (die "Could not copy codec parameters to context\n"))
  | decoder_open_failed (filled : AVCodecContext) (h : idx ≠ -1) :
      Outcome fw name_in rate name_out idx params
      (Run.after
        [.avformat_open_input name_in true, .avformat_find_stream_info true,
         .avcodec_find_decoder params.codec_id true,
         .avcodec_alloc_context3 .input_codec_ctx true,
         .avcodec_parameters_to_context true,
         .avcodec_open2 .input_codec_ctx filled none]
        (die "Could not open codec\n"))
  | output_alloc_failed (filled dec : AVCodecContext) (h : idx ≠ -1) :
      Outcome fw name_in rate name_out idx params
      (Run.after (input_ops name_in params.codec_id filled dec ++ [.avformat_alloc_output_context2 name_out false])
        (die "Could not create output context\n"))
  | no_format (filled dec : AVCodecContext) (h : idx ≠ -1) :
      Outcome fw name_in rate name_out idx params
      (Run.after (input_ops name_in params.codec_id filled dec ++
        [.avformat_alloc_output_context2 name_out true, .av_guess_format name_out false])
        (quit_after_printf "Could not guess format.\n"))
  | no_encoder (filled dec : AVCodecContext) (fmt : AVOutputFormat) (h : idx ≠ -1)
      (hfmt : fw.av_guess_format name_out = some fmt) :
      Outcome fw name_in rate name_out idx params
      (Run.after (input_ops name_in params.codec_id filled dec ++
        [.avformat_alloc_output_context2 name_out true, .av_guess_format name_out true,
         .avcodec_find_encoder fmt.audio_codec false])
        (quit_after_printf "Could not find audio codec.\n"))
  | new_stream_failed (filled dec : AVCodecContext) (fmt : AVOutputFormat) (h : idx ≠ -1)
      (hfmt : fw.av_guess_format name_out = some fmt) :
      Outcome fw name_in rate name_out idx params
      (Run.after (input_ops name_in params.codec_id filled dec ++
        [.avformat_alloc_output_context2 name_out true, .av_guess_format name_out true,
         .avcodec_find_encoder fmt.audio_codec true, .avformat_new_stream none])
        (die "Failed to allocate output stream\n"))
  | encoder_alloc_failed (filled dec : AVCodecContext) (fmt : AVOutputFormat) (index : Int)
      (h : idx ≠ -1) (hfmt : fw.av_guess_format name_out = some fmt) :
      Outcome fw name_in rate name_out idx params
      (Run.after (input_ops name_in params.codec_id filled dec ++
        [.avformat_alloc_output_context2 name_out true, .av_guess_format name_out true,
         .avcodec_find_encoder fmt.audio_codec true, .avformat_new_stream (some index),
         .avcodec_alloc_context3 .output_codec_ctx false])
        (die "Could not allocate audio codec context\n"))
  | encoder_open_failed (filled dec : AVCodecContext) (fmt : AVOutputFormat) (codec : AVCodec)
      (index : Int) (fresh : AVCodecContext) (h : idx ≠ -1)
      (hfmt : fw.av_guess_format name_out = some fmt)
      (hcodec : fw.avcodec_find_encoder fmt.audio_codec = some codec) :
      Outcome fw name_in rate name_out idx params
      (Run.after (input_ops name_in params.codec_id filled dec ++ output_ops name_out fmt.audio_codec index dec
          (configure_encoder fresh rate dec codec) none) (die "Could not open codec\n"))
  | sink_open_failed (filled dec : AVCodecContext) (oformat fmt : AVOutputFormat)
      (codec : AVCodec) (index : Int) (fresh enc : AVCodecContext) (h : idx ≠ -1)
      (hfmt : fw.av_guess_format name_out = some fmt)
      (hcodec : fw.avcodec_find_encoder fmt.audio_codec = some codec)
      (hfile : oformat.flags &&& AVFMT_NOFILE = 0) :
      Outcome fw name_in rate name_out idx params
      (Run.after (input_ops name_in params.codec_id filled dec ++ output_ops name_out fmt.audio_codec index dec
          (configure_encoder fresh rate dec codec) (some enc) ++
        [.avcodec_parameters_from_context, .avio_open name_out false])
        (die "Could not open output file\n"))
  | header_failed (filled dec : AVCodecContext) (oformat fmt : AVOutputFormat)
      (codec : AVCodec) (index : Int) (fresh enc : AVCodecContext) (h : idx ≠ -1)
      (hfmt : fw.av_guess_format name_out = some fmt)
      (hcodec : fw.avcodec_find_encoder fmt.audio_codec = some codec) :
      Outcome fw name_in rate name_out idx params
      (Run.after (input_ops name_in params.codec_id filled dec ++ output_ops name_out fmt.audio_codec index dec
          (configure_encoder fresh rate dec codec) (some enc) ++ [.avcodec_parameters_from_context] ++
        sink_ops oformat name_out true ++ [.avformat_write_header none])
        (die "Error occurred when opening output file\n"))
  | swr_alloc_failed (filled dec : AVCodecContext) (oformat fmt : AVOutputFormat)
      (codec : AVCodec) (index : Int) (fresh enc : AVCodecContext) (tb : AVRational)
      (h : idx ≠ -1) (hfmt : fw.av_guess_format name_out = some fmt)
      (hcodec : fw.avcodec_find_encoder fmt.audio_codec = some codec) :
      Outcome fw name_in rate name_out idx params
      (Run.after (input_ops name_in params.codec_id filled dec ++ output_ops name_out fmt.audio_codec index dec
          (configure_encoder fresh rate dec codec) (some enc) ++ [.avcodec_parameters_from_context] ++
        sink_ops oformat name_out true ++ [.avformat_write_header (some tb)] ++
        [.av_frame_alloc .frame,
         .swr_alloc_set_opts2 enc.ch_layout enc.sample_fmt enc.sample_rate params.ch_layout
           params.format params.sample_rate false])
        (die "Failed to initialize the resampling context\n"))
  | swr_init_failed (filled dec : AVCodecContext) (oformat fmt : AVOutputFormat)
      (codec : AVCodec) (index : Int) (fresh enc : AVCodecContext) (tb : AVRational)
      (h : idx ≠ -1) (hfmt : fw.av_guess_format name_out = some fmt)
      (hcodec : fw.avcodec_find_encoder fmt.audio_codec = some codec) :
      Outcome fw name_in rate name_out idx params
      (Run.after (input_ops name_in params.codec_id filled dec ++ output_ops name_out fmt.audio_codec index dec
          (configure_encoder fresh rate dec codec) (some enc) ++ [.avcodec_parameters_from_context] ++
        sink_ops oformat name_out true ++ [.avformat_write_header (some tb)] ++
        [.av_frame_alloc .frame,
         .swr_alloc_set_opts2 enc.ch_layout enc.sample_fmt enc.sample_rate params.ch_layout
           params.format params.sample_rate true,
         .swr_init false])
        (die "Failed to initialize the resampling context\n"))
  | swr_reinit_failed (filled dec : AVCodecContext) (oformat fmt : AVOutputFormat)
      (codec : AVCodec) (index : Int) (fresh enc : AVCodecContext) (tb : AVRational)
      (h : idx ≠ -1) (hfmt : fw.av_guess_format name_out = some fmt)
      (hcodec : fw.avcodec_find_encoder fmt.audio_codec = some codec) :
      Outcome fw name_in rate name_out idx params
      (Run.after (input_ops name_in params.codec_id filled dec ++ output_ops name_out fmt.audio_codec index dec
          (configure_encoder fresh rate dec codec) (some enc) ++ [.avcodec_parameters_from_context] ++
        sink_ops oformat name_out true ++ [.avformat_write_header (some tb)] ++
        [.av_frame_alloc .frame,
         .swr_alloc_set_opts2 enc.ch_layout enc.sample_fmt enc.sample_rate params.ch_layout
           params.format params.sample_rate true,
         .swr_init true, .swr_init false])
        (die "Failed to initialize the resampling context\n"))
  | transcoding (filled dec : AVCodecContext) (oformat fmt : AVOutputFormat)
      (codec : AVCodec) (index : Int) (fresh enc : AVCodecContext) (tb : AVRational)
      (h : idx ≠ -1) (hfmt : fw.av_guess_format name_out = some fmt)
      (hcodec : fw.avcodec_find_encoder fmt.audio_codec = some codec) :
      Outcome fw name_in rate name_out idx params
      (Run.after (input_ops name_in params.codec_id filled dec ++ output_ops name_out fmt.audio_codec index dec
          (configure_encoder fresh rate dec codec) (some enc) ++ [.avcodec_parameters_from_context] ++
        sink_ops oformat name_out true ++ [.avformat_write_header (some tb)] ++
        resampler_ops enc params)
        (transcode fw
          { audio_stream_index := idx
            output_codec_ctx := enc
            out_stream_index := index
            out_stream_time_base := tb
            oformat := oformat } fw.reads))

/-- Calls made by the transcode loop and the teardown (lines 167-219). -/
def Op.in_pipeline : Op → Bool
  | .av_read_frame _ => true
  | .avcodec_send_packet _ _ => true
  | .avcodec_receive_frame _ => true
  | .av_frame_alloc .resampled_frame => true
  | .av_channel_layout_copy _ => true
  | .av_frame_get_buffer _ _ => true
  | .swr_convert_frame _ _ _ => true
  | .av_packet_unref => true
  | .avcodec_send_frame _ _ => true
  | .avcodec_receive_packet _ => true
  | .av_packet_rescale_ts _ _ _ => true
  | .av_interleaved_write_frame _ _ => true
  | .av_frame_free _ => true
  | .av_write_trailer => true
  | .avcodec_free_context _ => true
  | .avformat_close_input => true
  | .avio_closep => true
  | .avformat_free_context => true
  | .swr_free => true
  | _ => false

/-- What every call of the loop satisfies, given the local variables of main: a packet
submitted to the decoder has the selected stream index; a destination frame carries
the encoder context's rate, format and layout (and, when handed to the converter, the
source frame's sample count); a written packet carries the output stream's index. -/
def loop_op (ctx : Pipeline) : Op → Prop
  | .avcodec_send_packet p _ => p.stream_index = ctx.audio_stream_index
  | .swr_convert_frame dst src _ =>
    dst.sample_rate = ctx.output_codec_ctx.sample_rate ∧
    dst.format = ctx.output_codec_ctx.sample_fmt ∧
    dst.ch_layout = ctx.output_codec_ctx.ch_layout ∧
    dst.nb_samples = src.nb_samples
  | .avcodec_send_frame f _ =>
    f.sample_rate = ctx.output_codec_ctx.sample_rate ∧
    f.format = ctx.output_codec_ctx.sample_fmt ∧
    f.ch_layout = ctx.output_codec_ctx.ch_layout
  | .av_interleaved_write_frame p _ => p.stream_index = ctx.out_stream_index
  | _ => True

/-- Lines 196-197: what main does to a packet between the encoder and the writer. -/
def deliver (ctx : Pipeline) (p : AVPacket) : AVPacket :=
  { av_packet_rescale_ts p ctx.output_codec_ctx.time_base ctx.out_stream_time_base with
    stream_index := ctx.out_stream_index }

/-- The written packets of a run are its yielded packets, delivered. -/
def delivers (ctx : Pipeline) (r : Run) : Prop :=
  written_packets r.trace = (yielded_packets r.trace).map (deliver ctx)

/-- Starting from ledger `l`, the run `r` never releases a handle that is not live; if
it returns 0 no handle is live at the end; if it does not return 0 it released no
long-lived handle. -/
def settles (l : Ledger) (r : Run) : Prop :=
  (r.trace.foldl Ledger.step l).faults = 0 ∧
  (r.exit = 0 → (r.trace.foldl Ledger.step l).live = []) ∧
  (r.exit ≠ 0 → ∀ op ∈ r.trace, op.keeps_handles)

/-- Calls made for one decoded frame or one encoded packet (lines 174-204). -/
def Op.in_frame_body : Op → Bool
  | .avcodec_receive_frame _ => true
  | .av_frame_alloc .resampled_frame => true
  | .av_channel_layout_copy _ => true
  | .av_frame_get_buffer _ _ => true
  | .swr_convert_frame _ _ _ => true
  | .av_packet_unref => true
  | .avcodec_send_frame _ _ => true
  | .avcodec_receive_packet _ => true
  | .av_packet_rescale_ts _ _ _ => true
  | .av_interleaved_write_frame _ _ => true
  | .av_frame_free .resampled_frame => true
  | _ => false

/-- Calls made by the body of the read loop (lines 167-207), the reads that return a
packet included. -/
def Op.in_body : Op → Bool
  | .av_read_frame (some _) => true
  | .avcodec_send_packet _ _ => true
  | op => op.in_frame_body

/-- Calls made before the read loop (lines 53-165). -/
def Op.in_setup : Op → Bool
  | .avformat_open_input _ _ => true
  | .avformat_find_stream_info _ => true
  | .avcodec_find_decoder _ _ => true
  | .avcodec_alloc_context3 _ _ => true
  | .avcodec_parameters_to_context _ => true
  | .avcodec_open2 _ _ _ => true
  | .avformat_alloc_output_context2 _ _ => true
  | .av_guess_format _ _ => true
  | .avcodec_find_encoder _ _ => true
  | .avformat_new_stream _ => true
  | .av_channel_layout_copy _ => true
  | .avcodec_parameters_from_context => true
  | .avio_open _ _ => true
  | .avformat_write_header _ => true
  | .av_frame_alloc .frame => true
  | .swr_alloc_set_opts2 _ _ _ _ _ _ _ => true
  | .swr_init _ => true
  | _ => false

/-- The run `r` is calls satisfying `P` followed by the run `k`, or it is calls
satisfying `P` that end in `return 1`. -/
def continues (P : Op → Bool) (r k : Run) : Prop :=
  (∃ B : List Op, (∀ op ∈ B, P op = true) ∧ r.trace = B ++ k.trace ∧ r.exit = k.exit) ∨
  (r.exit = 1 ∧ ∀ op ∈ r.trace, P op = true)

/-- A line that starts like the usage message of line 35. -/
def is_usage (m : String) : Prop :=
  m.data.take 7 = "Usage: ".data

instance (m : String) : Decidable (is_usage m) :=
  inferInstanceAs (Decidable (m.data.take 7 = "Usage: ".data))

/-- A call of av_read_frame. -/
def Op.is_read : Op → Bool
  | .av_read_frame _ => true
  | _ => false

/-! ## Sample frameworks -/

/-- A stereo layout. -/
def stereo : AVChannelLayout := { order := 1, nb_channels := 2, mask := 3 }

/-- A video stream followed by an audio stream (44100 Hz, stereo). -/
def sample_streams : List AVStream :=
  [ { codecpar := { codec_type := .video, codec_id := 27, format := 0, sample_rate := 0,
                    ch_layout := default } },
    { codecpar := { codec_type := .audio, codec_id := 86018, format := 8,
                    sample_rate := 44100, ch_layout := stereo } } ]

/-- A decoded frame of 1024 samples in the decoder's native format. -/
def sample_frame : AVFrame :=
  { sample_rate := 44100, format := 8, nb_samples := 1024, ch_layout := stereo }

/-- A video packet, then an audio packet that decodes to one frame, which encodes to
two packets. -/
def sample_reads : List ReadOut :=
  [ { pkt := { stream_index := 0, pts := 0, dts := 0, duration := 1, data := 100 },
      send_packet_ok := true, frames := [] },
    { pkt := { stream_index := 1, pts := 0, dts := 0, duration := 1024, data := 101 },
      send_packet_ok := true,
      frames :=
        [ { frame := sample_frame, get_buffer_ok := true, convert_ret := 0,
            converted_samples := 371, send_frame_ok := true,
            packets :=
              [ { pkt := { stream_index := 0, pts := 0, dts := 0, duration := 160,
                           data := 200 }, write_ok := true },
                { pkt := { stream_index := 0, pts := 160, dts := 160, duration := 160,
                           data := 201 }, write_ok := true } ] } ] } ]

/-- A framework in which every call succeeds. -/
def sample_framework : Framework :=
  { avformat_open_input := true
    avformat_find_stream_info := true
    streams := sample_streams
    avcodec_find_decoder := fun id => some { id := id, sample_fmts := [8] }
    alloc_input_codec_ctx := some default
    avcodec_parameters_to_context := fun c p =>
      some { c with sample_rate := p.sample_rate, ch_layout := p.ch_layout,
                    sample_fmt := p.format }
    open_input_codec := fun c => some c
    avformat_alloc_output_context2 := fun _ => some { audio_codec := 65536, flags := 0 }
    av_guess_format := fun _ => some { audio_codec := 65536, flags := 0 }
    avcodec_find_encoder := fun id => some { id := id, sample_fmts := [1, 2] }
    avformat_new_stream := some 0
    alloc_output_codec_ctx := some default
    open_output_codec := fun c => some { c with time_base := { num := 1, den := 16000 } }
    avio_open := true
    avformat_write_header := some { num := 1, den := 1000 }
    swr_alloc_set_opts2 := true
    swr_init := true
    swr_init_again := true
    reads := sample_reads }

/-- A command line with a numeric sample rate. -/
def sample_argv : List String := ["convert", "in.mp4", "16000", "out.wav"]

/-- The encoder context the sample run configures. -/
def sample_cfg : AVCodecContext :=
  { sample_rate := 16000, ch_layout := stereo, sample_fmt := 1, bit_rate := 64000,
    time_base := { num := 0, den := 0 } }

/-- The encoder context the sample framework returns from avcodec_open2. -/
def sample_enc : AVCodecContext :=
  { sample_cfg with time_base := { num := 1, den := 16000 } }

/-- The sample framework with a video stream only. -/
def video_only_framework : Framework :=
  { sample_framework with streams := sample_streams.take 1 }

/-- The sample framework, except that the input holds one audio packet and the
conversion of its frame fails: swr_convert_frame returns -22 and leaves 0 samples. -/
def failing_convert_framework : Framework :=
  { sample_framework with
    reads :=
      [ { pkt := { stream_index := 1, pts := 0, dts := 0, duration := 1024, data := 101 },
          send_packet_ok := true,
          frames :=
            [ { frame := sample_frame, get_buffer_ok := true, convert_ret := -22,
                converted_samples := 0, send_frame_ok := true,
                packets :=
                  [ { pkt := { stream_index := 0, pts := 0, dts := 0, duration := 160,
                               data := 200 }, write_ok := true } ] } ] } ] }

/-- The destination frame main builds for `sample_frame` in the sample run. -/
def sample_dst : AVFrame :=
  { sample_rate := 16000, format := 1, nb_samples := 1024, ch_layout := stereo }

/-- The sample framework, except that avformat_find_stream_info fails. -/
def probe_failing_framework : Framework :=
  { sample_framework with avformat_find_stream_info := false }

/-- The video packet of the sample input. -/
def sample_video_pkt : AVPacket :=
  { stream_index := 0, pts := 0, dts := 0, duration := 1, data := 100 }

/-- The audio packet of the sample input. -/
def sample_audio_pkt : AVPacket :=
  { stream_index := 1, pts := 0, dts := 0, duration := 1024, data := 101 }

/-! ## Basic facts about runs -/

@[simp] theorem call_trace (op : Op) (k : Run) : (call op k).trace = op :: k.trace := rfl

@[simp] theorem call_exit (op : Op) (k : Run) : (call op k).exit = k.exit := rfl

@[simp] theorem call_stderr (op : Op) (k : Run) : (call op k).stderr = k.stderr := rfl

@[simp] theorem die_trace (msg : String) : (die msg).trace = [] := rfl

@[simp] theorem die_exit (msg : String) : (die msg).exit = 1 := rfl

@[simp] theorem die_stderr (msg : String) : (die msg).stderr = [msg] := rfl

@[simp] theorem say_trace (msg : String) (k : Run) : (say msg k).trace = k.trace := rfl

@[simp] theorem say_exit (msg : String) (k : Run) : (say msg k).exit = k.exit := rfl

@[simp] theorem say_stderr (msg : String) (k : Run) : (say msg k).stderr = k.stderr := rfl

theorem digits_value_of_not_digit (acc : Nat) (cs : List Char)
    (h : cs.takeWhile isdigit = []) : digits_value acc cs = acc := by
  cases cs with
  | nil => rfl
  | cons c r =>
    by_cases hc : isdigit c = true
    · simp [List.takeWhile, hc] at h
    · simp [digits_value, hc]

theorem atoi_of_non_numeric (s : String) (h : non_numeric s) : atoi s = 0 := by
  unfold non_numeric leading_digits at h
  unfold atoi
  cases hd : s.data.dropWhile isspace with
  | nil => simp [to_int, clamp_long]
  | cons c r =>
    rw [hd] at h
    by_cases hm : c = '-'
    · have hs : strip_sign (c :: r) = r := by simp [strip_sign, hm]
      rw [hs] at h
      simp [hm, digits_value_of_not_digit 0 r h, to_int, clamp_long]
    · by_cases hp : c = '+'
      · have hs : strip_sign (c :: r) = r := by simp [strip_sign, hp]
        rw [hs] at h
        simp [hp, digits_value_of_not_digit 0 r h, to_int, clamp_long]
      · have hs : strip_sign (c :: r) = c :: r := by simp [strip_sign, hm, hp]
        rw [hs] at h
        simp [hm, hp, digits_value_of_not_digit 0 (c :: r) h, to_int, clamp_long]

/-! ## The outcomes of the set-up stages -/

@[simp] theorem after_trace (pre : List Op) (r : Run) :
    (Run.after pre r).trace = pre ++ r.trace := rfl

@[simp] theorem after_exit (pre : List Op) (r : Run) : (Run.after pre r).exit = r.exit := rfl

@[simp] theorem after_stderr (pre : List Op) (r : Run) :
    (Run.after pre r).stderr = r.stderr := rfl

theorem after_after (p q : List Op) (r : Run) :
    Run.after p (Run.after q r) = Run.after (p ++ q) r := by
  simp [Run.after]

theorem call_eq_after (op : Op) (r : Run) : call op r = Run.after [op] r := rfl

/-- Every way lines 53-98 can go: seven failures, and the success that continues
with `k`. -/
theorem open_input_cases (fw : Framework) (name : String)
    (k : Int → AVCodecParameters → AVCodecContext → Run) (idx : Int)
    (params : AVCodecParameters) (hidx : idx = find_audio_stream fw.streams 0)
    (hparams : params = (fw.streams.getD idx.toNat default).codecpar) :
    open_input fw name k = Run.after [.avformat_open_input name false]
        (die ("Could not open input file " ++ name ++ "\n")) ∨
    open_input fw name k = Run.after
        [.avformat_open_input name true, .avformat_find_stream_info false]
        (die ("Could not find stream info in " ++ name ++ "\n")) ∨
    (idx = -1 ∧ open_input fw name k = Run.after
        [.avformat_open_input name true, .avformat_find_stream_info true]
        (die ("Could not find audio stream in " ++ name ++ "\n"))) ∨
    (idx ≠ -1 ∧ open_input fw name k = Run.after
        [.avformat_open_input name true, .avformat_find_stream_info true,
         .avcodec_find_decoder params.codec_id false]
        (die "Unsupported codec!\n")) ∨
    (idx ≠ -1 ∧ open_input fw name k = Run.after
        [.avformat_open_input name true, .avformat_find_stream_info true,
         .avcodec_find_decoder params.codec_id true,
         .avcodec_alloc_context3 .input_codec_ctx false]
        (die "Could not allocate audio codec context\n")) ∨
    (idx ≠ -1 ∧ open_input fw name k = Run.after
        [.avformat_open_input name true, .avformat_find_stream_info true,
         .avcodec_find_decoder params.codec_id true,
         .avcodec_alloc_context3 .input_codec_ctx true,
         .avcodec_parameters_to_context false]
        (die "Could not copy codec parameters to context\n")) ∨
    (∃ filled, idx ≠ -1 ∧ open_input fw name k = Run.after
        [.avformat_open_input name true, .avformat_find_stream_info true,
         .avcodec_find_decoder params.codec_id true,
         .avcodec_alloc_context3 .input_codec_ctx true,
         .avcodec_parameters_to_context true,
         .avcodec_open2 .input_codec_ctx filled none]
        (die "Could not open codec\n")) ∨
    (∃ filled ctx, idx ≠ -1 ∧ open_input fw name k =
        Run.after (input_ops name params.codec_id filled ctx) (k idx params ctx)) := by
  have e : open_input fw name k =
      (call (.avformat_open_input name fw.avformat_open_input) <|
      if !fw.avformat_open_input then
        die ("Could not open input file " ++ name ++ "\n") else
      call (.avformat_find_stream_info fw.avformat_find_stream_info) <|
      if !fw.avformat_find_stream_info then
        die ("Could not find stream info in " ++ name ++ "\n") else
      if idx = -1 then
        die ("Could not find audio stream in " ++ name ++ "\n") else
      call (.avcodec_find_decoder params.codec_id
        (fw.avcodec_find_decoder params.codec_id).isSome) <|
      match fw.avcodec_find_decoder params.codec_id with
      | none => die "Unsupported codec!\n"
      | some _ =>
      call (.avcodec_alloc_context3 .input_codec_ctx fw.alloc_input_codec_ctx.isSome) <|
      match fw.alloc_input_codec_ctx with
      | none => die "Could not allocate audio codec context\n"
      | some fresh_input_ctx =>
      call (.avcodec_parameters_to_context
        (fw.avcodec_parameters_to_context fresh_input_ctx params).isSome) <|
      match fw.avcodec_parameters_to_context fresh_input_ctx params with
      | none => die "Could not copy codec parameters to context\n"
      | some filled_input_ctx =>
      call (.avcodec_open2 .input_codec_ctx filled_input_ctx
        (fw.open_input_codec filled_input_ctx)) <|
      match fw.open_input_codec filled_input_ctx with
      | none => die "Could not open codec\n"
      | some input_codec_ctx => k idx params input_codec_ctx) := by
    subst hidx hparams
    rfl
  rw [e]
  clear e hidx hparams
  cases h1 : fw.avformat_open_input
  · left; simp [Run.after, call]
  right
  cases h2 : fw.avformat_find_stream_info
  · left; simp [Run.after, call]
  right
  by_cases h3 : idx = -1
  · left; simp [h3, Run.after, call]
  right
  cases h4 : fw.avcodec_find_decoder params.codec_id
  · left; simp [h3, Run.after, call]
  right
  cases h5 : fw.alloc_input_codec_ctx with
  | none => left; simp [h3, Run.after, call]
  | some fresh =>
  right
  cases h6 : fw.avcodec_parameters_to_context fresh params with
  | none => left; simp [h3, h6, Run.after, call]
  | some filled =>
  right
  cases h7 : fw.open_input_codec filled with
  | none =>
    left
    exact ⟨filled, h3, by simp [h3, h6, h7, Run.after, call]⟩
  | some ctx =>
    right
    exact ⟨filled, ctx, h3, by simp [h3, h6, h7, Run.after, call, input_ops]⟩

@[simp] theorem quit_after_printf_trace (msg : String) : (quit_after_printf msg).trace = [] :=
  rfl

@[simp] theorem quit_after_printf_exit (msg : String) : (quit_after_printf msg).exit = 1 := rfl

@[simp] theorem quit_after_printf_stderr (msg : String) :
    (quit_after_printf msg).stderr = [] := rfl

/-- Every way lines 100-150 can go: eight failures, and the success that continues
with `k`. -/
theorem open_output_cases (fw : Framework) (name : String) (rate : Int)
    (dec : AVCodecContext) (k : AVOutputFormat → Int → AVCodecContext → AVRational → Run) :
    open_output fw name rate dec k = Run.after
        [.avformat_alloc_output_context2 name false]
        (die "Could not create output context\n") ∨
    open_output fw name rate dec k = Run.after
        [.avformat_alloc_output_context2 name true, .av_guess_format name false]
        (quit_after_printf "Could not guess format.\n") ∨
    (∃ fmt, fw.av_guess_format name = some fmt ∧ open_output fw name rate dec k = Run.after
        [.avformat_alloc_output_context2 name true, .av_guess_format name true,
         .avcodec_find_encoder fmt.audio_codec false]
        (quit_after_printf "Could not find audio codec.\n")) ∨
    (∃ fmt, fw.av_guess_format name = some fmt ∧ open_output fw name rate dec k = Run.after
        [.avformat_alloc_output_context2 name true, .av_guess_format name true,
         .avcodec_find_encoder fmt.audio_codec true, .avformat_new_stream none]
        (die "Failed to allocate output stream\n")) ∨
    (∃ fmt index, fw.av_guess_format name = some fmt ∧
      open_output fw name rate dec k = Run.after
        [.avformat_alloc_output_context2 name true, .av_guess_format name true,
         .avcodec_find_encoder fmt.audio_codec true, .avformat_new_stream (some index),
         .avcodec_alloc_context3 .output_codec_ctx false]
        (die "Could not allocate audio codec context\n")) ∨
    (∃ fmt codec index fresh, fw.av_guess_format name = some fmt ∧
      fw.avcodec_find_encoder fmt.audio_codec = some codec ∧
      fw.alloc_output_codec_ctx = some fresh ∧
      open_output fw name rate dec k = Run.after
        (output_ops name fmt.audio_codec index dec (configure_encoder fresh rate dec codec)
          none)
        (die "Could not open codec\n")) ∨
    (∃ (oformat fmt : AVOutputFormat), ∃ codec index fresh enc,
      fw.av_guess_format name = some fmt ∧
      fw.avcodec_find_encoder fmt.audio_codec = some codec ∧
      fw.alloc_output_codec_ctx = some fresh ∧
      oformat.flags &&& AVFMT_NOFILE = 0 ∧
      open_output fw name rate dec k = Run.after
        (output_ops name fmt.audio_codec index dec (configure_encoder fresh rate dec codec)
          (some enc) ++ [.avcodec_parameters_from_context, .avio_open name false])
        (die "Could not open output file\n")) ∨
    (∃ (oformat fmt : AVOutputFormat), ∃ codec index fresh enc,
      fw.av_guess_format name = some fmt ∧
      fw.avcodec_find_encoder fmt.audio_codec = some codec ∧
      fw.alloc_output_codec_ctx = some fresh ∧
      open_output fw name rate dec k = Run.after
        (output_ops name fmt.audio_codec index dec (configure_encoder fresh rate dec codec)
          (some enc) ++ [.avcodec_parameters_from_context] ++ sink_ops oformat name true ++
          [.avformat_write_header none])
        (die "Error occurred when opening output file\n")) ∨
    (∃ (oformat fmt : AVOutputFormat), ∃ codec index fresh enc tb,
      fw.av_guess_format name = some fmt ∧
      fw.avcodec_find_encoder fmt.audio_codec = some codec ∧
      fw.alloc_output_codec_ctx = some fresh ∧
      open_output fw name rate dec k = Run.after
        (output_ops name fmt.audio_codec index dec (configure_encoder fresh rate dec codec)
          (some enc) ++ [.avcodec_parameters_from_context] ++ sink_ops oformat name true ++
          [.avformat_write_header (some tb)])
        (k oformat index enc tb)) := by
  unfold open_output guess_codec_from_extension
  cases h1 : fw.avformat_alloc_output_context2 name with
  | none => left; simp [Run.after, call]
  | some oformat =>
  right
  cases h2 : fw.av_guess_format name with
  | none => left; simp [Run.after, call, say, quit_after_printf]
  | some fmt =>
  right
  cases h3 : fw.avcodec_find_encoder fmt.audio_codec with
  | none => left; exact ⟨fmt, rfl, by simp [h3, Run.after, call, say, quit_after_printf]⟩
  | some codec =>
  right
  cases h4 : fw.avformat_new_stream with
  | none => left; exact ⟨fmt, rfl, by simp [h3, h4, Run.after, call]⟩
  | some index =>
  right
  cases h5 : fw.alloc_output_codec_ctx with
  | none => left; exact ⟨fmt, index, rfl, by simp [h3, h4, h5, Run.after, call]⟩
  | some fresh =>
  right
  cases h6 : fw.open_output_codec (configure_encoder fresh rate dec codec) with
  | none =>
    left
    exact ⟨fmt, codec, index, fresh, rfl, h3, rfl,
      by simp [h3, h4, h5, h6, Run.after, call, output_ops]⟩
  | some enc =>
  right
  by_cases hf : oformat.flags &&& AVFMT_NOFILE = 0
  · cases h7 : fw.avio_open
    · left
      exact ⟨oformat, fmt, codec, index, fresh, enc, rfl, h3, rfl, hf,
        by simp [h3, h4, h5, h6, h7, hf, Run.after, call, output_ops]⟩
    · right
      cases h8 : fw.avformat_write_header with
      | none =>
        left
        exact ⟨oformat, fmt, codec, index, fresh, enc, rfl, h3, rfl,
          by simp [h3, h4, h5, h6, h7, h8, hf, Run.after, call, output_ops, sink_ops]⟩
      | some tb =>
        right
        exact ⟨oformat, fmt, codec, index, fresh, enc, tb, rfl, h3, rfl,
          by simp [h3, h4, h5, h6, h7, h8, hf, Run.after, call, output_ops, sink_ops]⟩
  · right
    cases h8 : fw.avformat_write_header with
    | none =>
      left
      exact ⟨oformat, fmt, codec, index, fresh, enc, rfl, h3, rfl,
        by simp [h3, h4, h5, h6, h8, hf, Run.after, call, output_ops, sink_ops]⟩
    | some tb =>
      right
      exact ⟨oformat, fmt, codec, index, fresh, enc, tb, rfl, h3, rfl,
        by simp [h3, h4, h5, h6, h8, hf, Run.after, call, output_ops, sink_ops]⟩

/-- Every way lines 152-165 can go: three failures, and the success that continues
with `k`. -/
theorem init_resampler_cases (fw : Framework) (enc : AVCodecContext)
    (params : AVCodecParameters) (k : Run) :
    init_resampler fw enc params k = Run.after
        [.av_frame_alloc .frame,
         .swr_alloc_set_opts2 enc.ch_layout enc.sample_fmt enc.sample_rate params.ch_layout
           params.format params.sample_rate false]
        (die "Failed to initialize the resampling context\n") ∨
    init_resampler fw enc params k = Run.after
        [.av_frame_alloc .frame,
         .swr_alloc_set_opts2 enc.ch_layout enc.sample_fmt enc.sample_rate params.ch_layout
           params.format params.sample_rate true,
         .swr_init false]
        (die "Failed to initialize the resampling context\n") ∨
    init_resampler fw enc params k = Run.after
        [.av_frame_alloc .frame,
         .swr_alloc_set_opts2 enc.ch_layout enc.sample_fmt enc.sample_rate params.ch_layout
           params.format params.sample_rate true,
         .swr_init true, .swr_init false]
        (die "Failed to initialize the resampling context\n") ∨
    init_resampler fw enc params k = Run.after (resampler_ops enc params) k := by
  unfold init_resampler
  cases h1 : fw.swr_alloc_set_opts2
  · left; simp [Run.after, call]
  right
  cases h2 : fw.swr_init
  · left; simp [Run.after, call]
  right
  cases h3 : fw.swr_init_again
  · left; simp [Run.after, call]
  right
  simp [Run.after, call, resampler_ops]

/-- With argc = 4, the run of main has one of the shapes of `Outcome`. -/
theorem main_outcome (fw : Framework) (argv : List String) (hlen : argv.length = 4) :
    Outcome fw (argv.getD 1 "") (atoi (argv.getD 2 "")) (argv.getD 3 "")
      (find_audio_stream fw.streams 0)
      (fw.streams.getD (find_audio_stream fw.streams 0).toNat default).codecpar
      (main fw argv) := by
  have e : main fw argv =
      open_input fw (argv.getD 1 "") fun audio_stream_index codec_params input_codec_ctx =>
      open_output fw (argv.getD 3 "") (atoi (argv.getD 2 "")) input_codec_ctx
        fun oformat out_stream_index output_codec_ctx out_stream_time_base =>
      init_resampler fw output_codec_ctx codec_params <|
      transcode fw
        { audio_stream_index := audio_stream_index
          output_codec_ctx := output_codec_ctx
          out_stream_index := out_stream_index
          out_stream_time_base := out_stream_time_base
          oformat := oformat } fw.reads := by
    unfold main
    rw [if_neg (by simp [hlen])]
  rw [e]
  clear e
  rcases open_input_cases fw (argv.getD 1 "") _ _ _ rfl rfl with
    h | h | ⟨hi, h⟩ | ⟨hi, h⟩ | ⟨hi, h⟩ | ⟨hi, h⟩ | ⟨filled, hi, h⟩ | ⟨filled, dec, hi, h⟩
  · rw [h]; exact .open_failed
  · rw [h]; exact .probe_failed
  · rw [h]; exact .no_audio_stream hi
  · rw [h]; exact .no_decoder hi
  · rw [h]; exact .decoder_alloc_failed hi
  · rw [h]; exact .parameters_failed hi
  · rw [h]; exact .decoder_open_failed filled hi
  rw [h]
  clear h
  rcases open_output_cases fw (argv.getD 3 "") (atoi (argv.getD 2 "")) dec _ with
    h | h | ⟨fmt, hfmt, h⟩ | ⟨fmt, hfmt, h⟩ | ⟨fmt, index, hfmt, h⟩ |
    ⟨fmt, codec, index, fresh, hfmt, hcodec, -, h⟩ |
    ⟨oformat, fmt, codec, index, fresh, enc, hfmt, hcodec, -, hfile, h⟩ |
    ⟨oformat, fmt, codec, index, fresh, enc, hfmt, hcodec, -, h⟩ |
    ⟨oformat, fmt, codec, index, fresh, enc, tb, hfmt, hcodec, -, h⟩
  · rw [h, after_after]; exact .output_alloc_failed filled dec hi
  · rw [h, after_after]; exact .no_format filled dec hi
  · rw [h, after_after]; exact .no_encoder filled dec fmt hi hfmt
  · rw [h, after_after]; exact .new_stream_failed filled dec fmt hi hfmt
  · rw [h, after_after]; exact .encoder_alloc_failed filled dec fmt index hi hfmt
  · rw [h, after_after]; exact .encoder_open_failed filled dec fmt codec index fresh hi hfmt hcodec
  · rw [h, after_after, ← List.append_assoc]
    exact .sink_open_failed filled dec oformat fmt codec index fresh enc hi hfmt hcodec hfile
  · rw [h, after_after]
    simp only [← List.append_assoc]
    exact .header_failed filled dec oformat fmt codec index fresh enc hi hfmt hcodec
  rw [h, after_after]
  clear h
  rcases init_resampler_cases fw enc
    (fw.streams.getD (find_audio_stream fw.streams 0).toNat default).codecpar _ with
    h | h | h | h
  · rw [h, after_after]
    simp only [← List.append_assoc]
    exact .swr_alloc_failed filled dec oformat fmt codec index fresh enc tb hi hfmt hcodec
  · rw [h, after_after]
    simp only [← List.append_assoc]
    exact .swr_init_failed filled dec oformat fmt codec index fresh enc tb hi hfmt hcodec
  · rw [h, after_after]
    simp only [← List.append_assoc]
    exact .swr_reinit_failed filled dec oformat fmt codec index fresh enc tb hi hfmt hcodec
  · rw [h, after_after]
    simp only [← List.append_assoc]
    exact .transcoding filled dec oformat fmt codec index fresh enc tb hi hfmt hcodec

/-! ## Where calls can occur -/

theorem teardown_in_pipeline (ctx : Pipeline) (op : Op) (h : op ∈ (teardown ctx).trace) :
    op.in_pipeline = true := by
  unfold teardown at h
  split at h
  · simp at h
    rcases h with rfl | rfl | rfl | rfl | rfl | rfl | rfl | rfl <;> rfl
  · simp at h
    rcases h with rfl | rfl | rfl | rfl | rfl | rfl | rfl <;> rfl

theorem write_packets_in_pipeline (fw : Framework) (ctx : Pipeline) (es : List EncOut)
    (k : Run) (op : Op) (h : op ∈ (write_packets fw ctx es k).trace) :
    op.in_pipeline = true ∨ op ∈ k.trace := by
  induction es with
  | nil =>
    simp [write_packets] at h
    rcases h with h | h
    · subst h; exact Or.inl rfl
    · exact Or.inr h
  | cons e rest ih =>
    simp only [write_packets, call_trace, List.mem_cons] at h
    rcases h with h | h | h | h
    · subst h; exact Or.inl rfl
    · subst h; exact Or.inl rfl
    · subst h; exact Or.inl rfl
    · cases hw : e.write_ok <;> simp [hw] at h
      exact ih h

theorem convert_frames_in_pipeline (fw : Framework) (ctx : Pipeline) (ds : List DecOut)
    (k : Run) (op : Op) (h : op ∈ (convert_frames fw ctx ds k).trace) :
    op.in_pipeline = true ∨ op ∈ k.trace := by
  induction ds with
  | nil =>
    simp [convert_frames] at h
    rcases h with h | h
    · subst h; exact Or.inl rfl
    · exact Or.inr h
  | cons d rest ih =>
    simp only [convert_frames, call_trace, List.mem_cons] at h
    rcases h with h | h | h | h | h
    · subst h; exact Or.inl rfl
    · subst h; exact Or.inl rfl
    · subst h; exact Or.inl rfl
    · subst h; exact Or.inl rfl
    · cases hg : d.get_buffer_ok <;> simp [hg] at h
      rcases h with h | h | h | h
      · subst h; exact Or.inl rfl
      · subst h; exact Or.inl rfl
      · subst h; exact Or.inl rfl
      · cases hs : d.send_frame_ok <;> simp [hs] at h
        rcases write_packets_in_pipeline _ _ _ _ _ h with h | h
        · exact Or.inl h
        · simp only [call_trace, List.mem_cons] at h
          rcases h with h | h
          · subst h; exact Or.inl rfl
          · exact ih h

theorem transcode_in_pipeline (fw : Framework) (ctx : Pipeline) (rs : List ReadOut)
    (op : Op) (h : op ∈ (transcode fw ctx rs).trace) : op.in_pipeline = true := by
  induction rs with
  | nil =>
    simp [transcode] at h
    rcases h with h | h
    · subst h; rfl
    · exact teardown_in_pipeline _ _ h
  | cons r rest ih =>
    simp only [transcode, call_trace, List.mem_cons] at h
    rcases h with h | h
    · subst h; rfl
    · split at h
      · simp only [call_trace, List.mem_cons] at h
        rcases h with h | h
        · subst h; rfl
        · cases hs : r.send_packet_ok <;> simp [hs] at h
          rcases convert_frames_in_pipeline _ _ _ _ _ h with h | h
          · exact h
          · simp only [call_trace, List.mem_cons] at h
            rcases h with h | h
            · subst h; rfl
            · exact ih h
      · simp only [call_trace, List.mem_cons] at h
        rcases h with h | h
        · subst h; rfl
        · exact ih h

theorem not_mem_transcode (fw : Framework) (ctx : Pipeline) (rs : List ReadOut) (op : Op)
    (h : op.in_pipeline = false) : op ∉ (transcode fw ctx rs).trace := by
  intro hmem
  rw [transcode_in_pipeline _ _ _ _ hmem] at h
  exact absurd h (by decide)

@[simp] theorem open2_not_mem_transcode (fw : Framework) (ctx : Pipeline) (rs : List ReadOut)
    (v : CtxVar) (c : AVCodecContext) (o : Option AVCodecContext) :
    Op.avcodec_open2 v c o ∈ (transcode fw ctx rs).trace ↔ False :=
  iff_false_intro (not_mem_transcode _ _ _ _ rfl)

@[simp] theorem find_decoder_not_mem_transcode (fw : Framework) (ctx : Pipeline)
    (rs : List ReadOut) (id : Nat) (found : Bool) :
    Op.avcodec_find_decoder id found ∈ (transcode fw ctx rs).trace ↔ False :=
  iff_false_intro (not_mem_transcode _ _ _ _ rfl)

@[simp] theorem new_stream_not_mem_transcode (fw : Framework) (ctx : Pipeline)
    (rs : List ReadOut) (index : Option Int) :
    Op.avformat_new_stream index ∈ (transcode fw ctx rs).trace ↔ False :=
  iff_false_intro (not_mem_transcode _ _ _ _ rfl)

@[simp] theorem write_header_not_mem_transcode (fw : Framework) (ctx : Pipeline)
    (rs : List ReadOut) (tb : Option AVRational) :
    Op.avformat_write_header tb ∈ (transcode fw ctx rs).trace ↔ False :=
  iff_false_intro (not_mem_transcode _ _ _ _ rfl)

theorem teardown_loop_op (ctx : Pipeline) (op : Op) (h : op ∈ (teardown ctx).trace) :
    loop_op ctx op := by
  unfold teardown at h
  split at h
  · simp at h
    rcases h with rfl | rfl | rfl | rfl | rfl | rfl | rfl | rfl <;> trivial
  · simp at h
    rcases h with rfl | rfl | rfl | rfl | rfl | rfl | rfl <;> trivial

theorem write_packets_loop_op (fw : Framework) (ctx : Pipeline) (es : List EncOut)
    (k : Run) (op : Op) (h : op ∈ (write_packets fw ctx es k).trace) :
    loop_op ctx op ∨ op ∈ k.trace := by
  induction es with
  | nil =>
    simp [write_packets] at h
    rcases h with rfl | h
    · exact Or.inl trivial
    · exact Or.inr h
  | cons e rest ih =>
    simp only [write_packets, call_trace, List.mem_cons] at h
    rcases h with rfl | rfl | rfl | h
    · exact Or.inl trivial
    · exact Or.inl trivial
    · exact Or.inl rfl
    · cases hw : e.write_ok <;> simp [hw] at h
      exact ih h

theorem convert_frames_loop_op (fw : Framework) (ctx : Pipeline) (ds : List DecOut)
    (k : Run) (op : Op) (h : op ∈ (convert_frames fw ctx ds k).trace) :
    loop_op ctx op ∨ op ∈ k.trace := by
  induction ds with
  | nil =>
    simp [convert_frames] at h
    rcases h with rfl | h
    · exact Or.inl trivial
    · exact Or.inr h
  | cons d rest ih =>
    simp only [convert_frames, call_trace, List.mem_cons] at h
    rcases h with rfl | rfl | rfl | rfl | h
    · exact Or.inl trivial
    · exact Or.inl trivial
    · exact Or.inl trivial
    · exact Or.inl trivial
    · cases hg : d.get_buffer_ok <;> simp [hg] at h
      rcases h with rfl | rfl | rfl | h
      · exact Or.inl ⟨rfl, rfl, rfl, rfl⟩
      · exact Or.inl trivial
      · exact Or.inl ⟨rfl, rfl, rfl⟩
      · cases hs : d.send_frame_ok <;> simp [hs] at h
        rcases write_packets_loop_op _ _ _ _ _ h with h | h
        · exact Or.inl h
        · simp only [call_trace, List.mem_cons] at h
          rcases h with rfl | h
          · exact Or.inl trivial
          · exact ih h

theorem transcode_loop_op (fw : Framework) (ctx : Pipeline) (rs : List ReadOut)
    (op : Op) (h : op ∈ (transcode fw ctx rs).trace) : loop_op ctx op := by
  induction rs with
  | nil =>
    simp [transcode] at h
    rcases h with rfl | h
    · trivial
    · exact teardown_loop_op _ _ h
  | cons r rest ih =>
    simp only [transcode, call_trace, List.mem_cons] at h
    rcases h with rfl | h
    · trivial
    · split at h
      next haudio =>
        simp only [call_trace, List.mem_cons] at h
        rcases h with rfl | h
        · exact haudio
        · cases hs : r.send_packet_ok <;> simp [hs] at h
          rcases convert_frames_loop_op _ _ _ _ _ h with h | h
          · exact h
          · simp only [call_trace, List.mem_cons] at h
            rcases h with rfl | h
            · trivial
            · exact ih h
      next =>
        simp only [call_trace, List.mem_cons] at h
        rcases h with rfl | h
        · trivial
        · exact ih h

theorem teardown_delivers (ctx : Pipeline) : delivers ctx (teardown ctx) := by
  unfold delivers teardown
  split <;> simp [written_packets, yielded_packets]

theorem write_packets_delivers (fw : Framework) (ctx : Pipeline) (es : List EncOut) (k : Run)
    (hk : delivers ctx k) : delivers ctx (write_packets fw ctx es k) := by
  induction es with
  | nil =>
    unfold delivers at hk ⊢
    simpa [write_packets, written_packets, yielded_packets] using hk
  | cons e rest ih =>
    unfold delivers at ih ⊢
    cases hw : e.write_ok
    · simp [write_packets, hw, written_packets, yielded_packets, deliver]
    · simp only [written_packets, yielded_packets] at ih
      simp [write_packets, hw, written_packets, yielded_packets, deliver, ih]

theorem convert_frames_delivers (fw : Framework) (ctx : Pipeline) (ds : List DecOut) (k : Run)
    (hk : delivers ctx k) : delivers ctx (convert_frames fw ctx ds k) := by
  induction ds with
  | nil =>
    unfold delivers at hk ⊢
    simpa [convert_frames, written_packets, yielded_packets] using hk
  | cons d rest ih =>
    have hw := write_packets_delivers fw ctx d.packets
      (call (.av_frame_free .resampled_frame) (convert_frames fw ctx rest k))
      (by
        unfold delivers at ih ⊢
        simpa [written_packets, yielded_packets] using ih)
    unfold delivers at hw ⊢
    cases hg : d.get_buffer_ok
    · simp [convert_frames, hg, written_packets, yielded_packets]
    · cases hs : d.send_frame_ok
      · simp [convert_frames, hg, hs, written_packets, yielded_packets]
      · simp only [written_packets, yielded_packets] at hw
        simp [convert_frames, hg, hs, written_packets, yielded_packets, hw]

theorem transcode_delivers (fw : Framework) (ctx : Pipeline) (rs : List ReadOut) :
    delivers ctx (transcode fw ctx rs) := by
  induction rs with
  | nil =>
    have := teardown_delivers ctx
    unfold delivers at this ⊢
    simp only [written_packets, yielded_packets] at this
    simp [transcode, written_packets, yielded_packets, this]
  | cons r rest ih =>
    have hc := convert_frames_delivers fw ctx r.frames
      (call .av_packet_unref (transcode fw ctx rest))
      (by
        unfold delivers at ih ⊢
        simpa [written_packets, yielded_packets] using ih)
    unfold delivers at hc ih ⊢
    simp only [written_packets, yielded_packets] at hc ih
    simp only [transcode]
    split
    · cases hs : r.send_packet_ok
      · simp [hs, written_packets, yielded_packets]
      · simp [hs, written_packets, yielded_packets, hc]
    · simp [written_packets, yielded_packets, ih]

theorem transcode_written (fw : Framework) (ctx : Pipeline) (rs : List ReadOut) :
    written_packets (transcode fw ctx rs).trace =
      (yielded_packets (transcode fw ctx rs).trace).map (deliver ctx) :=
  transcode_delivers fw ctx rs

theorem written_sink_ops (oformat : AVOutputFormat) (name : String) (ok : Bool) :
    written_packets (sink_ops oformat name ok) = [] := by
  unfold sink_ops
  split <;> rfl

theorem yielded_sink_ops (oformat : AVOutputFormat) (name : String) (ok : Bool) :
    yielded_packets (sink_ops oformat name ok) = [] := by
  unfold sink_ops
  split <;> rfl

theorem written_append (a b : List Op) :
    written_packets (a ++ b) = written_packets a ++ written_packets b := by
  simp [written_packets]

theorem yielded_append (a b : List Op) :
    yielded_packets (a ++ b) = yielded_packets a ++ yielded_packets b := by
  simp [yielded_packets]

/-! ### Resources -/

theorem settles_call (l : Ledger) (op : Op) (k : Run) (hop : op.keeps_handles)
    (hk : settles (l.step op) k) : settles l (call op k) := by
  obtain ⟨h1, h2, h3⟩ := hk
  refine ⟨by simpa using h1, by simpa using h2, ?_⟩
  intro he o ho
  simp only [call_trace, List.mem_cons] at ho
  rcases ho with rfl | ho
  · exact hop
  · exact h3 (by simpa using he) o ho

theorem settles_die (l : Ledger) (msg : String) (hl : l.faults = 0) : settles l (die msg) :=
  ⟨by simpa using hl, by simp, by simp⟩

theorem settles_after (l : Ledger) (pre : List Op) (r : Run)
    (hpre : ∀ op ∈ pre, op.keeps_handles) (hr : settles (pre.foldl Ledger.step l) r) :
    settles l (Run.after pre r) := by
  obtain ⟨h1, h2, h3⟩ := hr
  refine ⟨by simpa [List.foldl_append] using h1, by simpa [List.foldl_append] using h2, ?_⟩
  intro he o ho
  simp only [after_trace, List.mem_append] at ho
  rcases ho with ho | ho
  · exact hpre o ho
  · exact h3 (by simpa using he) o ho

theorem step_idle (l : Ledger) (op : Op) (hr : op.releases = none) (ha : op.acquires = none) :
    l.step op = l := by
  simp [Ledger.step, hr, ha]

theorem settles_idle_call (l : Ledger) (op : Op) (k : Run) (hr : op.releases = none)
    (ha : op.acquires = none) (hk : settles l k) : settles l (call op k) :=
  settles_call _ _ _ (Or.inl hr) (by rw [step_idle _ _ hr ha]; exact hk)

theorem write_packets_settles (fw : Framework) (ctx : Pipeline) (es : List EncOut) (k : Run)
    (l : Ledger) (hl : l.faults = 0) (hk : settles l k) :
    settles l (write_packets fw ctx es k) := by
  induction es with
  | nil =>
    exact settles_idle_call _ _ _ (by rfl) (by rfl) hk
  | cons e rest ih =>
    simp only [write_packets]
    refine settles_idle_call _ _ _ (by rfl) (by rfl) ?_
    refine settles_idle_call _ _ _ (by rfl) (by rfl) ?_
    refine settles_idle_call _ _ _ (by rfl) (by rfl) ?_
    cases hw : e.write_ok
    · exact settles_die _ _ hl
    · exact ih

theorem step_alloc_resampled (l : Ledger) :
    l.step (.av_frame_alloc .resampled_frame) =
      { l with live := Resource.resampled_frame :: l.live } := rfl

theorem step_free_resampled (l : Ledger) :
    Ledger.step { l with live := Resource.resampled_frame :: l.live }
      (.av_frame_free .resampled_frame) = l := by
  simp [Ledger.step, Op.releases, Op.acquires, FrameVar.resource]

theorem convert_frames_settles (fw : Framework) (ctx : Pipeline) (ds : List DecOut) (k : Run)
    (l : Ledger) (hl : l.faults = 0) (hk : settles l k) :
    settles l (convert_frames fw ctx ds k) := by
  induction ds with
  | nil =>
    exact settles_idle_call _ _ _ (by rfl) (by rfl) hk
  | cons d rest ih =>
    simp only [convert_frames]
    refine settles_idle_call _ _ _ (by rfl) (by rfl) ?_
    refine settles_call _ _ _ (Or.inl rfl) ?_
    rw [step_alloc_resampled]
    refine settles_idle_call _ _ _ (by rfl) (by rfl) ?_
    refine settles_idle_call _ _ _ (by rfl) (by rfl) ?_
    cases hg : d.get_buffer_ok
    · exact settles_die _ _ hl
    · simp only [Bool.not_true, Bool.false_eq_true, if_false]
      refine settles_idle_call _ _ _ (by rfl) (by rfl) ?_
      refine settles_idle_call _ _ _ (by rfl) (by rfl) ?_
      refine settles_idle_call _ _ _ (by rfl) (by rfl) ?_
      cases hs : d.send_frame_ok
      · exact settles_die _ _ hl
      · simp only [Bool.not_true, Bool.false_eq_true, if_false]
        refine write_packets_settles _ _ _ _ _ hl ?_
        refine settles_call _ _ _ (Or.inr rfl) ?_
        rw [step_free_resampled]
        exact ih

theorem transcode_settles (fw : Framework) (ctx : Pipeline) (rs : List ReadOut)
    (l : Ledger) (hl : l.faults = 0) (hk : settles l (teardown ctx)) :
    settles l (transcode fw ctx rs) := by
  induction rs with
  | nil =>
    exact settles_idle_call _ _ _ (by rfl) (by rfl) hk
  | cons r rest ih =>
    simp only [transcode]
    refine settles_idle_call _ _ _ (by rfl) (by rfl) ?_
    split
    · refine settles_idle_call _ _ _ (by rfl) (by rfl) ?_
      cases hs : r.send_packet_ok
      · exact settles_die _ _ hl
      · simp only [Bool.not_true, Bool.false_eq_true, if_false]
        refine convert_frames_settles _ _ _ _ _ hl ?_
        refine settles_idle_call _ _ _ (by rfl) (by rfl) ?_
        exact ih
    · refine settles_idle_call _ _ _ (by rfl) (by rfl) ?_
      exact ih

@[simp] theorem mem_sink_ops (oformat : AVOutputFormat) (name : String) (ok : Bool) (op : Op) :
    op ∈ sink_ops oformat name ok ↔
      (oformat.flags &&& AVFMT_NOFILE = 0 ∧ op = .avio_open name ok) := by
  unfold sink_ops
  split <;> simp [*]

theorem sink_ops_keeps_handles (oformat : AVOutputFormat) (name : String) (ok : Bool) :
    ∀ op ∈ sink_ops oformat name ok, op.keeps_handles := by
  intro op h
  simp at h
  rw [h.2]
  exact Or.inl rfl

/-! ### Order of calls -/

theorem in_body_of_frame_body (op : Op) (h : op.in_frame_body = true) : op.in_body = true := by
  cases op <;> simp_all [Op.in_body, Op.in_frame_body]

theorem continues_refl (P : Op → Bool) (k : Run) : continues P k k :=
  Or.inl ⟨[], by simp, by simp, rfl⟩

theorem continues_die (P : Op → Bool) (msg : String) (k : Run) : continues P (die msg) k :=
  Or.inr ⟨rfl, by simp⟩

theorem continues_call (P : Op → Bool) (op : Op) (r k : Run) (hop : P op = true)
    (h : continues P r k) : continues P (call op r) k := by
  rcases h with ⟨B, hB, ht, he⟩ | ⟨he, hall⟩
  · refine Or.inl ⟨op :: B, ?_, by simp [ht], by simpa using he⟩
    intro o ho
    rcases List.mem_cons.mp ho with rfl | ho
    · exact hop
    · exact hB o ho
  · refine Or.inr ⟨by simpa using he, ?_⟩
    intro o ho
    simp only [call_trace, List.mem_cons] at ho
    rcases ho with rfl | ho
    · exact hop
    · exact hall o ho

theorem continues_trans (P : Op → Bool) (r k k2 : Run) (h1 : continues P r k)
    (h2 : continues P k k2) : continues P r k2 := by
  rcases h1 with ⟨B, hB, ht, he⟩ | h1
  · rcases h2 with ⟨B2, hB2, ht2, he2⟩ | ⟨he2, hall2⟩
    · refine Or.inl ⟨B ++ B2, ?_, by simp [ht, ht2], he.trans he2⟩
      intro o ho
      rcases List.mem_append.mp ho with ho | ho
      · exact hB o ho
      · exact hB2 o ho
    · refine Or.inr ⟨he.trans he2, ?_⟩
      intro o ho
      rw [ht] at ho
      rcases List.mem_append.mp ho with ho | ho
      · exact hB o ho
      · exact hall2 o ho
  · exact Or.inr h1

theorem continues_mono (P Q : Op → Bool) (r k : Run) (hPQ : ∀ op, P op = true → Q op = true)
    (h : continues P r k) : continues Q r k := by
  rcases h with ⟨B, hB, ht, he⟩ | ⟨he, hall⟩
  · exact Or.inl ⟨B, fun o ho => hPQ o (hB o ho), ht, he⟩
  · exact Or.inr ⟨he, fun o ho => hPQ o (hall o ho)⟩

theorem write_packets_continues (fw : Framework) (ctx : Pipeline) (es : List EncOut)
    (k : Run) : continues Op.in_frame_body (write_packets fw ctx es k) k := by
  induction es with
  | nil => exact continues_call _ _ _ _ rfl (continues_refl _ _)
  | cons e rest ih =>
    simp only [write_packets]
    refine continues_call _ _ _ _ rfl (continues_call _ _ _ _ rfl
      (continues_call _ _ _ _ rfl ?_))
    cases hw : e.write_ok
    · exact continues_die _ _ _
    · exact ih

theorem convert_frames_continues (fw : Framework) (ctx : Pipeline) (ds : List DecOut)
    (k : Run) : continues Op.in_frame_body (convert_frames fw ctx ds k) k := by
  induction ds with
  | nil => exact continues_call _ _ _ _ rfl (continues_refl _ _)
  | cons d rest ih =>
    simp only [convert_frames]
    refine continues_call _ _ _ _ rfl (continues_call _ _ _ _ rfl
      (continues_call _ _ _ _ rfl (continues_call _ _ _ _ rfl ?_)))
    cases hg : d.get_buffer_ok
    · exact continues_die _ _ _
    · simp only [Bool.not_true, Bool.false_eq_true, if_false]
      refine continues_call _ _ _ _ rfl (continues_call _ _ _ _ rfl
        (continues_call _ _ _ _ rfl ?_))
      cases hs : d.send_frame_ok
      · exact continues_die _ _ _
      · simp only [Bool.not_true, Bool.false_eq_true, if_false]
        exact continues_trans _ _ _ _ (write_packets_continues _ _ _ _)
          (continues_call _ _ _ _ rfl ih)

theorem transcode_continues (fw : Framework) (ctx : Pipeline) (rs : List ReadOut) :
    continues Op.in_body (transcode fw ctx rs) (call (.av_read_frame none) (teardown ctx)) := by
  induction rs with
  | nil => exact continues_refl _ _
  | cons r rest ih =>
    simp only [transcode]
    refine continues_call _ _ _ _ rfl ?_
    split
    · refine continues_call _ _ _ _ rfl ?_
      cases hs : r.send_packet_ok
      · exact continues_die _ _ _
      · simp only [Bool.not_true, Bool.false_eq_true, if_false]
        exact continues_trans _ _ _ _
          (continues_mono _ _ _ _ in_body_of_frame_body (convert_frames_continues _ _ _ _))
          (continues_call _ _ _ _ rfl ih)
    · exact continues_call _ _ _ _ rfl ih

theorem split_after {α : Type} (P : α → Prop) (S L pre post : List α) (x : α)
    (hS : ∀ y ∈ S, ¬ P y) (hx : P x) (h : S ++ L = pre ++ x :: post) :
    ∃ pre', pre = S ++ pre' ∧ L = pre' ++ x :: post := by
  induction S generalizing pre with
  | nil => exact ⟨pre, rfl, by simpa using h⟩
  | cons s S' ih =>
    cases pre with
    | nil =>
      simp only [List.cons_append, List.nil_append, List.cons.injEq] at h
      exact absurd (h.1 ▸ hx) (hS s (List.mem_cons_self _ _))
    | cons p pre0 =>
      simp only [List.cons_append, List.cons.injEq] at h
      obtain ⟨pre', hp, hL⟩ := ih pre0 (fun y hy => hS y (List.mem_cons_of_mem _ hy)) h.2
      exact ⟨pre', by rw [h.1, hp]; rfl, hL⟩

theorem split_unique {α : Type} (P : α → Prop) (A T pre post : List α) (x x' : α)
    (hA : ∀ y ∈ A, ¬ P y) (hT : ∀ y ∈ T, ¬ P y) (hx' : P x')
    (h : A ++ x :: T = pre ++ x' :: post) : pre = A ∧ post = T := by
  obtain ⟨pre', hp, hL⟩ := split_after P A (x :: T) pre post x' hA hx' h
  cases pre' with
  | nil =>
    simp only [List.nil_append, List.cons.injEq] at hL
    exact ⟨by simpa using hp, hL.2.symm⟩
  | cons z rest =>
    simp only [List.cons_append, List.cons.injEq] at hL
    exact absurd hx' (hT x' (by rw [hL.2]; simp))

theorem main_of_bad_argc (fw : Framework) (argv : List String) (h : argv.length ≠ 4) :
    main fw argv =
      die ("Usage: " ++ argv.getD 0 "(null)" ++ " <input file> <sample rate> <output file>\n") := by
  unfold main
  rw [if_pos h]

/-! ## Claims -/

/-- The configuration of the encoder context at line 133, for every run. -/
theorem encoder_open_fields (fw : Framework) (argv : List String) (cfg : AVCodecContext)
    (opened : Option AVCodecContext)
    (h : Op.avcodec_open2 .output_codec_ctx cfg opened ∈ (main fw argv).trace) :
    cfg.sample_rate = atoi (argv.getD 2 "") ∧
    (∃ filled dec, Op.avcodec_open2 .input_codec_ctx filled (some dec) ∈ (main fw argv).trace ∧
      cfg.ch_layout = dec.ch_layout) ∧
    (∃ fmt codec, fw.av_guess_format (argv.getD 3 "") = some fmt ∧
      fw.avcodec_find_encoder fmt.audio_codec = some codec ∧
      ∀ f rest, codec.sample_fmts = f :: rest → cfg.sample_fmt = f) ∧
    cfg.bit_rate = 64000 := by
  by_cases hlen : argv.length = 4
  swap
  · simp [main_of_bad_argc fw argv hlen] at h
  have ho := main_outcome fw argv hlen
  revert h
  generalize main fw argv = r at ho ⊢
  cases ho <;> intro h <;>
    simp [input_ops, output_ops, resampler_ops] at h
  all_goals
    obtain ⟨rfl, rfl⟩ := h
    refine ⟨by simp [configure_encoder], ?_,
      ⟨_, _, by assumption, by assumption, ?_⟩, rfl⟩
    · simp [input_ops, output_ops, resampler_ops, configure_encoder]
      exact ⟨_, _, ⟨rfl, rfl⟩, rfl⟩
    · intro f rest hf
      simp [configure_encoder, hf]

/-- C3: whenever main opens the encoder (line 133), the context it passes has
sample rate = the converted second argument, channel layout = the layout of the opened
input decoder context, sample format = the first entry of the encoder's preferred list
when that list is non-empty, and bit rate = 64000. -/
theorem encoder_configuration (fw : Framework) (argv : List String) (cfg : AVCodecContext)
    (opened : Option AVCodecContext)
    (h : Op.avcodec_open2 .output_codec_ctx cfg opened ∈ (main fw argv).trace) :
    cfg.sample_rate = atoi (argv.getD 2 "") ∧
    (∃ filled dec, Op.avcodec_open2 .input_codec_ctx filled (some dec) ∈ (main fw argv).trace ∧
      cfg.ch_layout = dec.ch_layout) ∧
    (∃ fmt codec, fw.av_guess_format (argv.getD 3 "") = some fmt ∧
      fw.avcodec_find_encoder fmt.audio_codec = some codec ∧
      ∀ f rest, codec.sample_fmts = f :: rest → cfg.sample_fmt = f) ∧
    cfg.bit_rate = 64000 :=
  encoder_open_fields fw argv cfg opened h

/-- Witness of C3 on the sample run: the encoder is opened with 16000 Hz, the decoder's
stereo layout, the first listed format and 64000 bit/s. -/
theorem encoder_configuration_witness :
    Op.avcodec_open2 .output_codec_ctx sample_cfg (some sample_enc) ∈
      (main sample_framework sample_argv).trace ∧
    (sample_cfg.sample_rate = atoi (sample_argv.getD 2 "") ∧
    (∃ filled dec, Op.avcodec_open2 .input_codec_ctx filled (some dec) ∈
        (main sample_framework sample_argv).trace ∧
      sample_cfg.ch_layout = dec.ch_layout) ∧
    (∃ fmt codec, sample_framework.av_guess_format (sample_argv.getD 3 "") = some fmt ∧
      sample_framework.avcodec_find_encoder fmt.audio_codec = some codec ∧
      ∀ f rest, codec.sample_fmts = f :: rest → sample_cfg.sample_fmt = f) ∧
    sample_cfg.bit_rate = 64000) :=
  ⟨by decide, encoder_configuration sample_framework sample_argv sample_cfg (some sample_enc)
    (by decide)⟩

theorem find_audio_stream_none (streams : List AVStream) (i : Nat)
    (h : ∀ s ∈ streams, s.codecpar.codec_type ≠ .audio) : find_audio_stream streams i = -1 := by
  induction streams generalizing i with
  | nil => rfl
  | cons s rest ih =>
    have hs : s.codecpar.codec_type ≠ .audio := h s (by simp)
    simp only [find_audio_stream, hs, if_false]
    exact ih (i + 1) (fun t ht => h t (by simp [ht]))

theorem find_audio_stream_first (streams : List AVStream) (i : Nat)
    (h : ∃ s ∈ streams, s.codecpar.codec_type = .audio) :
    ∃ (j : Nat) (s : AVStream), find_audio_stream streams i = ((i + j : Nat) : Int) ∧
      streams[j]? = some s ∧ s.codecpar.codec_type = .audio ∧
      ∀ (j' : Nat) (t : AVStream), j' < j → streams[j']? = some t →
        t.codecpar.codec_type ≠ .audio := by
  induction streams generalizing i with
  | nil => simp at h
  | cons s rest ih =>
    by_cases hs : s.codecpar.codec_type = .audio
    · exact ⟨0, s, by simp [find_audio_stream, hs], by simp, hs, by omega⟩
    · have h2 : ∃ t ∈ rest, t.codecpar.codec_type = .audio := by
        obtain ⟨t, ht, hta⟩ := h
        rcases List.mem_cons.mp ht with rfl | ht
        · exact absurd hta hs
        · exact ⟨t, ht, hta⟩
      obtain ⟨j, t, hj, hget, hta, hmin⟩ := ih (i + 1) h2
      refine ⟨j + 1, t, ?_, by simpa using hget, hta, ?_⟩
      · simp only [find_audio_stream, hs, if_false, hj]
        congr 1
        omega
      · intro j' u hlt hu
        cases j' with
        | zero =>
          simp at hu
          subst hu
          exact hs
        | succ n =>
          simp at hu
          exact hmin n u (by omega) hu

/-- C1: if some input stream is audio, audio_stream_index is the smallest index of an
audio stream (every stream below it is not audio) and any decoder lookup of the run is
for that stream's codec; if no stream is audio, main exits with 1 and the run
contains no decoder lookup, allocation or open. -/
theorem audio_stream_selection (fw : Framework) (argv : List String) :
    ((∃ s ∈ fw.streams, s.codecpar.codec_type = .audio) →
      ∃ (i : Nat) (s : AVStream), find_audio_stream fw.streams 0 = (i : Int) ∧
        fw.streams[i]? = some s ∧ s.codecpar.codec_type = .audio ∧
        (∀ (j : Nat) (t : AVStream), j < i → fw.streams[j]? = some t →
          t.codecpar.codec_type ≠ .audio) ∧
        (∀ id found, Op.avcodec_find_decoder id found ∈ (main fw argv).trace →
          id = s.codecpar.codec_id)) ∧
    ((∀ s ∈ fw.streams, s.codecpar.codec_type ≠ .audio) →
      (main fw argv).exit = 1 ∧
      ∀ op ∈ (main fw argv).trace,
        (∀ id found, op ≠ .avcodec_find_decoder id found) ∧
        (∀ v ok, op ≠ .avcodec_alloc_context3 v ok) ∧
        (∀ v c o, op ≠ .avcodec_open2 v c o)) := by
  constructor
  · intro h
    obtain ⟨j, s, hj, hget, hs, hmin⟩ := find_audio_stream_first fw.streams 0 h
    simp only [Nat.zero_add] at hj
    refine ⟨j, s, hj, hget, hs, hmin, ?_⟩
    intro id found hmem
    by_cases hlen : argv.length = 4
    swap
    · simp [main_of_bad_argc fw argv hlen] at hmem
    have ho := main_outcome fw argv hlen
    have hp : (fw.streams.getD (find_audio_stream fw.streams 0).toNat default) = s := by
      simp [hj, hget]
    rw [hp] at ho
    revert hmem
    generalize main fw argv = r at ho ⊢
    cases ho <;> intro hmem <;>
      simp [input_ops, output_ops, resampler_ops] at hmem <;>
      exact hmem.1
  · intro h
    have hidx := find_audio_stream_none fw.streams 0 h
    by_cases hlen : argv.length = 4
    swap
    · simp [main_of_bad_argc fw argv hlen]
    have ho := main_outcome fw argv hlen
    generalize main fw argv = r at ho ⊢
    cases ho <;> first | contradiction | simp

/-- Witness of C1: on the sample streams (video, audio) index 1 is selected; with the
video stream alone the run exits with 1 before any decoder call. -/
theorem audio_stream_selection_witness :
    ((∃ s ∈ sample_framework.streams, s.codecpar.codec_type = .audio) ∧
      ∃ (i : Nat) (s : AVStream), find_audio_stream sample_framework.streams 0 = (i : Int) ∧
        sample_framework.streams[i]? = some s ∧ s.codecpar.codec_type = .audio ∧
        (∀ (j : Nat) (t : AVStream), j < i → sample_framework.streams[j]? = some t →
          t.codecpar.codec_type ≠ .audio) ∧
        (∀ id found, Op.avcodec_find_decoder id found ∈
            (main sample_framework sample_argv).trace →
          id = s.codecpar.codec_id)) ∧
    ((∀ s ∈ video_only_framework.streams, s.codecpar.codec_type ≠ .audio) ∧
      (main video_only_framework sample_argv).exit = 1 ∧
      ∀ op ∈ (main video_only_framework sample_argv).trace,
        (∀ id found, op ≠ .avcodec_find_decoder id found) ∧
        (∀ v ok, op ≠ .avcodec_alloc_context3 v ok) ∧
        (∀ v c o, op ≠ .avcodec_open2 v c o)) :=
  ⟨⟨by decide, (audio_stream_selection sample_framework sample_argv).1 (by decide)⟩,
   ⟨by decide, (audio_stream_selection video_only_framework sample_argv).2 (by decide)⟩⟩

/-! ### Diagnostics -/

theorem take_append_append (p a b : String) (n : Nat) (hp : n ≤ p.data.length) :
    (p ++ a ++ b).data.take n = p.data.take n := by
  rw [String.data_append, String.data_append, List.append_assoc,
    List.take_append_of_le_length hp]

theorem not_usage_append (p a b : String) (hp : 7 ≤ p.data.length)
    (hne : p.data.take 7 ≠ "Usage: ".data) : ¬ is_usage (p ++ a ++ b) := by
  unfold is_usage
  rw [take_append_append p a b 7 hp]
  exact hne

theorem write_packets_stderr (fw : Framework) (ctx : Pipeline) (es : List EncOut) (k : Run)
    (m : String) (h : m ∈ (write_packets fw ctx es k).stderr) :
    m = "Error while writing output packet\n" ∨ m ∈ k.stderr := by
  induction es with
  | nil => exact Or.inr (by simpa [write_packets] using h)
  | cons e rest ih =>
    simp only [write_packets, call_stderr] at h
    cases hw : e.write_ok <;> simp [hw] at h
    · exact Or.inl h
    · exact ih h

theorem convert_frames_stderr (fw : Framework) (ctx : Pipeline) (ds : List DecOut) (k : Run)
    (m : String) (h : m ∈ (convert_frames fw ctx ds k).stderr) :
    m = "Could not allocate audio buffer\n" ∨ m = "Error sending frame to encoder\n" ∨
      m = "Error while writing output packet\n" ∨ m ∈ k.stderr := by
  induction ds with
  | nil => exact Or.inr (Or.inr (Or.inr (by simpa [convert_frames] using h)))
  | cons d rest ih =>
    simp only [convert_frames, call_stderr] at h
    cases hg : d.get_buffer_ok <;> simp [hg] at h
    · exact Or.inl h
    · cases hs : d.send_frame_ok <;> simp [hs] at h
      · exact Or.inr (Or.inl h)
      · rcases write_packets_stderr _ _ _ _ _ h with h | h
        · exact Or.inr (Or.inr (Or.inl h))
        · exact ih (by simpa using h)

theorem teardown_stderr (ctx : Pipeline) : (teardown ctx).stderr = [] := by
  unfold teardown
  split <;> rfl

theorem transcode_stderr (fw : Framework) (ctx : Pipeline) (rs : List ReadOut) (m : String)
    (h : m ∈ (transcode fw ctx rs).stderr) :
    m = "Error sending packet to decoder\n" ∨ m = "Could not allocate audio buffer\n" ∨
      m = "Error sending frame to encoder\n" ∨ m = "Error while writing output packet\n" := by
  induction rs with
  | nil => simp [transcode, teardown_stderr] at h
  | cons r rest ih =>
    simp only [transcode] at h
    split at h
    · simp only [call_stderr] at h
      cases hs : r.send_packet_ok <;> simp [hs] at h
      · exact Or.inl h
      · rcases convert_frames_stderr _ _ _ _ _ h with h | h | h | h
        · exact Or.inr (Or.inl h)
        · exact Or.inr (Or.inr (Or.inl h))
        · exact Or.inr (Or.inr (Or.inr h))
        · exact ih (by simpa using h)
    · exact ih (by simpa using h)

theorem transcode_not_usage (fw : Framework) (ctx : Pipeline) (rs : List ReadOut) (m : String)
    (h : m ∈ (transcode fw ctx rs).stderr) : ¬ is_usage m := by
  rcases transcode_stderr _ _ _ _ h with rfl | rfl | rfl | rfl <;> decide

/-- C8: when argc is not 4, main returns 1 having printed the usage line and made no
framework call; when argc is 4, no usage line is printed and the first framework call
of the run is avformat_open_input on argv[1]. -/
theorem argument_count_check (fw : Framework) (argv : List String) :
    (argv.length ≠ 4 →
      (main fw argv).exit = 1 ∧ (main fw argv).trace = [] ∧
      ∃ m, (main fw argv).stderr = [m] ∧ is_usage m) ∧
    (argv.length = 4 →
      (main fw argv).trace.head? =
        some (.avformat_open_input (argv.getD 1 "") fw.avformat_open_input) ∧
      ∀ m ∈ (main fw argv).stderr, ¬ is_usage m) := by
  constructor
  · intro h
    rw [main_of_bad_argc fw argv h]
    refine ⟨rfl, rfl, _, rfl, ?_⟩
    unfold is_usage
    rw [take_append_append _ _ _ 7 (by decide)]
    decide
  · intro hlen
    constructor
    · unfold main
      rw [if_neg (by simp [hlen])]
      rfl
    · have ho := main_outcome fw argv hlen
      generalize main fw argv = r at ho ⊢
      have h1 : ∀ a : String, ¬ is_usage ("Could not open input file " ++ a ++ "\n") :=
        fun a => not_usage_append _ _ _ (by decide) (by decide)
      have h2 : ∀ a : String, ¬ is_usage ("Could not find stream info in " ++ a ++ "\n") :=
        fun a => not_usage_append _ _ _ (by decide) (by decide)
      have h3 : ∀ a : String, ¬ is_usage ("Could not find audio stream in " ++ a ++ "\n") :=
        fun a => not_usage_append _ _ _ (by decide) (by decide)
      cases ho <;> intro m hm <;> simp at hm <;>
        first
          | (subst hm; first | exact h1 _ | exact h2 _ | exact h3 _ | decide)
          | exact transcode_not_usage _ _ _ _ hm

/-- Witness of C8: no argument at all, and the sample command line. -/
theorem argument_count_check_witness :
    (([] : List String).length ≠ 4 ∧
      (main sample_framework []).exit = 1 ∧ (main sample_framework []).trace = [] ∧
      ∃ m, (main sample_framework []).stderr = [m] ∧ is_usage m) ∧
    (sample_argv.length = 4 ∧
      (main sample_framework sample_argv).trace.head? =
        some (.avformat_open_input (sample_argv.getD 1 "")
          sample_framework.avformat_open_input) ∧
      ∀ m ∈ (main sample_framework sample_argv).stderr, ¬ is_usage m) :=
  ⟨⟨by decide, (argument_count_check sample_framework []).1 (by decide)⟩,
   ⟨by decide, (argument_count_check sample_framework sample_argv).2 (by decide)⟩⟩

/-- C9 (as amended): a non-numeric second argument converts to 0 and is not rejected:
the run is the run for the argument "0", so the first call opens the input, any
encoder open is made with sample rate 0, and the exit code is whatever the framework
answers determine. -/
theorem non_numeric_rate_runs_as_zero (s : String) (h : non_numeric s) :
    atoi s = 0 ∧
    ∀ (fw : Framework) (a0 a1 a3 : String),
      main fw [a0, a1, s, a3] = main fw [a0, a1, "0", a3] ∧
      (main fw [a0, a1, s, a3]).trace.head? =
        some (.avformat_open_input a1 fw.avformat_open_input) ∧
      ∀ cfg opened, Op.avcodec_open2 .output_codec_ctx cfg opened ∈
        (main fw [a0, a1, s, a3]).trace → cfg.sample_rate = 0 := by
  have hz := atoi_of_non_numeric s h
  refine ⟨hz, fun fw a0 a1 a3 => ⟨?_, ?_, ?_⟩⟩
  · have h0 : atoi "0" = 0 := by decide
    unfold main
    simp [hz, h0]
  · unfold main
    rw [if_neg (by simp)]
    rfl
  · intro cfg opened hmem
    have := (encoder_open_fields fw [a0, a1, s, a3] cfg opened hmem).1
    simpa [hz] using this

/-- Witness of C9 (as amended) for the argument "abc". -/
theorem non_numeric_rate_runs_as_zero_witness :
    non_numeric "abc" ∧
    (atoi "abc" = 0 ∧
    ∀ (fw : Framework) (a0 a1 a3 : String),
      main fw [a0, a1, "abc", a3] = main fw [a0, a1, "0", a3] ∧
      (main fw [a0, a1, "abc", a3]).trace.head? =
        some (.avformat_open_input a1 fw.avformat_open_input) ∧
      ∀ cfg opened, Op.avcodec_open2 .output_codec_ctx cfg opened ∈
        (main fw [a0, a1, "abc", a3]).trace → cfg.sample_rate = 0) :=
  ⟨by decide, non_numeric_rate_runs_as_zero "abc" (by decide)⟩

/-- Counterexample to C9 as stated: with the non-numeric argument "abc" and a
framework that accepts every call, main completes the transcode and returns 0. -/
theorem non_numeric_rate_counterexample :
    non_numeric "abc" ∧ atoi "abc" = 0 ∧
    (main sample_framework ["convert", "in.mp4", "abc", "out.wav"]).exit = 0 ∧
    ¬ (main sample_framework ["convert", "in.mp4", "abc", "out.wav"]).exit = 1 := by
  decide

/-- C4: in a run whose encoder was opened as `enc`, every destination frame handed to
swr_convert_frame has the sample rate, sample format and channel layout of the encoder
context and the sample count of the source frame, and every frame submitted to
avcodec_send_frame has the sample rate, sample format and channel layout of the
encoder context, whatever the source frame's own rate, format and layout. -/
theorem adapted_frame_format (fw : Framework) (argv : List String)
    (cfg enc : AVCodecContext)
    (hopen : Op.avcodec_open2 .output_codec_ctx cfg (some enc) ∈ (main fw argv).trace) :
    (∀ dst src ret, Op.swr_convert_frame dst src ret ∈ (main fw argv).trace →
      dst.sample_rate = enc.sample_rate ∧ dst.format = enc.sample_fmt ∧
      dst.ch_layout = enc.ch_layout ∧ dst.nb_samples = src.nb_samples) ∧
    (∀ f ok, Op.avcodec_send_frame f ok ∈ (main fw argv).trace →
      f.sample_rate = enc.sample_rate ∧ f.format = enc.sample_fmt ∧
      f.ch_layout = enc.ch_layout) := by
  by_cases hlen : argv.length = 4
  swap
  · simp [main_of_bad_argc fw argv hlen] at hopen
  have ho := main_outcome fw argv hlen
  revert hopen
  generalize main fw argv = r at ho ⊢
  cases ho <;> intro hopen <;>
    simp [input_ops, output_ops, resampler_ops] at hopen <;>
    obtain ⟨-, rfl⟩ := hopen <;>
    refine ⟨fun dst src ret hm => ?_, fun f ok hm => ?_⟩ <;>
    simp [input_ops, output_ops, resampler_ops] at hm <;>
    simpa [loop_op] using transcode_loop_op _ _ _ _ hm

/-- Witness of C4 on the sample run. -/
theorem adapted_frame_format_witness :
    Op.avcodec_open2 .output_codec_ctx sample_cfg (some sample_enc) ∈
      (main sample_framework sample_argv).trace ∧
    ((∀ dst src ret, Op.swr_convert_frame dst src ret ∈
        (main sample_framework sample_argv).trace →
      dst.sample_rate = sample_enc.sample_rate ∧ dst.format = sample_enc.sample_fmt ∧
      dst.ch_layout = sample_enc.ch_layout ∧ dst.nb_samples = src.nb_samples) ∧
    (∀ f ok, Op.avcodec_send_frame f ok ∈ (main sample_framework sample_argv).trace →
      f.sample_rate = sample_enc.sample_rate ∧ f.format = sample_enc.sample_fmt ∧
      f.ch_layout = sample_enc.ch_layout)) :=
  ⟨by decide, adapted_frame_format sample_framework sample_argv sample_cfg sample_enc
    (by decide)⟩

theorem rescale_near_inf_mono (a a' b c : Int) (hb : 0 ≤ b) (hc : 0 < c) (h : a ≤ a') :
    rescale_near_inf a b c ≤ rescale_near_inf a' b c := by
  have hh : 0 ≤ c / 2 := Int.ediv_nonneg (le_of_lt hc) (by decide)
  unfold rescale_near_inf
  by_cases h1 : 0 ≤ a
  · have h2 : 0 ≤ a' := le_trans h1 h
    simp only [h1, h2, if_true]
    exact Int.ediv_le_ediv hc (by nlinarith)
  · by_cases h2 : 0 ≤ a'
    · simp only [h1, h2, if_true, if_false]
      have n1 : 0 ≤ (-a * b + c / 2) / c := Int.ediv_nonneg (by nlinarith) (le_of_lt hc)
      have n2 : 0 ≤ (a' * b + c / 2) / c := Int.ediv_nonneg (by nlinarith) (le_of_lt hc)
      omega
    · simp only [h1, h2, if_false]
      have := Int.ediv_le_ediv hc (show -a' * b + c / 2 ≤ -a * b + c / 2 by nlinarith)
      omega

theorem av_packet_rescale_ts_mono (bq cq : AVRational) (hb : bq.positive) (hc : cq.positive)
    (p q : AVPacket) (h : p.pts ≤ q.pts) :
    (av_packet_rescale_ts p bq cq).pts ≤ (av_packet_rescale_ts q bq cq).pts := by
  unfold av_packet_rescale_ts
  exact rescale_near_inf_mono _ _ _ _
    (le_of_lt (Int.mul_pos hb.1 hc.2)) (Int.mul_pos hc.1 hb.2) h

/-- C5: in a run whose encoder was opened as `enc`, whose output stream has index
`index` and whose header left the stream time base `tb`, the packets handed to
av_interleaved_write_frame are exactly the packets the encoder yielded, in the same
order, each rescaled from enc.time_base to tb and re-indexed to `index`; hence, when
both time bases are positive rationals, non-decreasing yielded presentation
timestamps give non-decreasing written presentation timestamps. -/
theorem written_packet_timestamps (fw : Framework) (argv : List String)
    (cfg enc : AVCodecContext) (index : Int) (tb : AVRational)
    (hopen : Op.avcodec_open2 .output_codec_ctx cfg (some enc) ∈ (main fw argv).trace)
    (hstream : Op.avformat_new_stream (some index) ∈ (main fw argv).trace)
    (hheader : Op.avformat_write_header (some tb) ∈ (main fw argv).trace) :
    written_packets (main fw argv).trace =
      (yielded_packets (main fw argv).trace).map
        (fun p => { av_packet_rescale_ts p enc.time_base tb with stream_index := index }) ∧
    (enc.time_base.positive → tb.positive →
      List.Pairwise (· ≤ ·) ((yielded_packets (main fw argv).trace).map (·.pts)) →
      List.Pairwise (· ≤ ·) ((written_packets (main fw argv).trace).map (·.pts))) := by
  have key : written_packets (main fw argv).trace =
      (yielded_packets (main fw argv).trace).map
        (fun p => { av_packet_rescale_ts p enc.time_base tb with stream_index := index }) := by
    by_cases hlen : argv.length = 4
    swap
    · simp [main_of_bad_argc fw argv hlen] at hopen
    have ho := main_outcome fw argv hlen
    revert hopen hstream hheader
    generalize main fw argv = r at ho ⊢
    cases ho <;> intro hopen hstream hheader <;>
      simp [input_ops, output_ops, resampler_ops] at hopen hstream hheader
    all_goals
      obtain ⟨-, rfl⟩ := hopen
      subst hstream hheader
      simp only [after_trace, written_append, yielded_append, written_sink_ops,
        yielded_sink_ops, transcode_written]
      simp [written_packets, yielded_packets, input_ops, output_ops, resampler_ops, deliver]
  refine ⟨key, fun hpe hpt hsorted => ?_⟩
  rw [key, List.map_map]
  rw [List.pairwise_map] at hsorted ⊢
  exact hsorted.imp (fun hab => av_packet_rescale_ts_mono _ _ hpe hpt _ _ hab)

/-- Witness of C5 on the sample run: encoder time base 1/16000, stream time base
1/1000, yielded timestamps 0 and 160, written timestamps 0 and 10. -/
theorem written_packet_timestamps_witness :
    Op.avcodec_open2 .output_codec_ctx sample_cfg (some sample_enc) ∈
      (main sample_framework sample_argv).trace ∧
    Op.avformat_new_stream (some 0) ∈ (main sample_framework sample_argv).trace ∧
    Op.avformat_write_header (some { num := 1, den := 1000 }) ∈
      (main sample_framework sample_argv).trace ∧
    sample_enc.time_base.positive ∧
    AVRational.positive { num := 1, den := 1000 } ∧
    List.Pairwise (· ≤ ·)
      ((yielded_packets (main sample_framework sample_argv).trace).map (·.pts)) ∧
    written_packets (main sample_framework sample_argv).trace =
      (yielded_packets (main sample_framework sample_argv).trace).map
        (fun p =>
          { av_packet_rescale_ts p sample_enc.time_base { num := 1, den := 1000 } with
            stream_index := 0 }) ∧
    List.Pairwise (· ≤ ·)
      ((written_packets (main sample_framework sample_argv).trace).map (·.pts)) :=
  ⟨by decide, by decide, by decide, by decide, by decide, by decide,
    (written_packet_timestamps sample_framework sample_argv sample_cfg sample_enc 0
      { num := 1, den := 1000 } (by decide) (by decide) (by decide)).1,
    (written_packet_timestamps sample_framework sample_argv sample_cfg sample_enc 0
      { num := 1, den := 1000 } (by decide) (by decide) (by decide)).2
      (by decide) (by decide) (by decide)⟩

/-- C6 on the code: main drops the return value of swr_convert_frame (line 186).
When the conversion fails, the destination frame is still submitted to the encoder,
the packet the encoder yields is still written, and main returns 0 with nothing
printed. -/
theorem failed_conversion_is_ignored :
    (main failing_convert_framework sample_argv).trace.get? 26 =
      some (.swr_convert_frame sample_dst sample_frame (-22)) ∧
    (main failing_convert_framework sample_argv).trace.get? 28 =
      some (.avcodec_send_frame { sample_dst with nb_samples := 0 } true) ∧
    (main failing_convert_framework sample_argv).trace.get? 31 =
      some (.av_interleaved_write_frame
        { stream_index := 0, pts := 0, dts := 0, duration := 10, data := 200 } true) ∧
    (main failing_convert_framework sample_argv).exit = 0 ∧
    (main failing_convert_framework sample_argv).stderr = [] := by
  decide

theorem forall_keeps_iff (l : List Op) :
    (∀ op ∈ l, op.keeps_handles) ↔ l.all (fun op => decide op.keeps_handles) = true := by
  simp [List.all_eq_true]

theorem sink_ops_all_keep (oformat : AVOutputFormat) (name : String) (ok : Bool) :
    (sink_ops oformat name ok).all (fun op => decide op.keeps_handles) = true := by
  unfold sink_ops
  split <;> rfl

theorem settles_quit (l : Ledger) (msg : String) (hl : l.faults = 0) :
    settles l (quit_after_printf msg) :=
  ⟨by simpa using hl, by simp, by simp⟩

theorem settles_main (fw : Framework) (argv : List String) :
    settles { live := [], faults := 0 } (main fw argv) := by
  by_cases hlen : argv.length = 4
  swap
  · rw [main_of_bad_argc fw argv hlen]
    exact settles_die _ _ rfl
  have ho := main_outcome fw argv hlen
  generalize main fw argv = r at ho ⊢
  cases ho with
  | header_failed filled dec oformat fmt codec index fresh enc h hfmt hcodec =>
    refine settles_after _ _ _ ?_ (settles_die _ _ ?_)
    · rw [forall_keeps_iff]
      simp [List.all_append, sink_ops_all_keep, input_ops, output_ops, Op.keeps_handles,
        Op.releases]
    · by_cases hf : oformat.flags &&& AVFMT_NOFILE = 0 <;>
        simp [input_ops, output_ops, sink_ops, hf, Ledger.step, Op.acquires, Op.releases,
          CtxVar.resource]
  | swr_alloc_failed filled dec oformat fmt codec index fresh enc tb h hfmt hcodec =>
    refine settles_after _ _ _ ?_ (settles_die _ _ ?_)
    · rw [forall_keeps_iff]
      simp [List.all_append, sink_ops_all_keep, input_ops, output_ops, Op.keeps_handles,
        Op.releases]
    · by_cases hf : oformat.flags &&& AVFMT_NOFILE = 0 <;>
        simp [input_ops, output_ops, sink_ops, hf, Ledger.step, Op.acquires, Op.releases,
          CtxVar.resource, FrameVar.resource]
  | swr_init_failed filled dec oformat fmt codec index fresh enc tb h hfmt hcodec =>
    refine settles_after _ _ _ ?_ (settles_die _ _ ?_)
    · rw [forall_keeps_iff]
      simp [List.all_append, sink_ops_all_keep, input_ops, output_ops, Op.keeps_handles,
        Op.releases]
    · by_cases hf : oformat.flags &&& AVFMT_NOFILE = 0 <;>
        simp [input_ops, output_ops, sink_ops, hf, Ledger.step, Op.acquires, Op.releases,
          CtxVar.resource, FrameVar.resource]
  | swr_reinit_failed filled dec oformat fmt codec index fresh enc tb h hfmt hcodec =>
    refine settles_after _ _ _ ?_ (settles_die _ _ ?_)
    · rw [forall_keeps_iff]
      simp [List.all_append, sink_ops_all_keep, input_ops, output_ops, Op.keeps_handles,
        Op.releases]
    · by_cases hf : oformat.flags &&& AVFMT_NOFILE = 0 <;>
        simp [input_ops, output_ops, sink_ops, hf, Ledger.step, Op.acquires, Op.releases,
          CtxVar.resource, FrameVar.resource]
  | transcoding filled dec oformat fmt codec index fresh enc tb h hfmt hcodec =>
    refine settles_after _ _ _ ?_ (transcode_settles _ _ _ _ ?_ ?_)
    · rw [forall_keeps_iff]
      simp [List.all_append, sink_ops_all_keep, input_ops, output_ops, resampler_ops,
        Op.keeps_handles, Op.releases]
    · by_cases hf : oformat.flags &&& AVFMT_NOFILE = 0 <;>
        simp [input_ops, output_ops, resampler_ops, sink_ops, hf, Ledger.step, Op.acquires,
          Op.releases, CtxVar.resource, FrameVar.resource]
    · by_cases hf : oformat.flags &&& AVFMT_NOFILE = 0 <;>
        simp [settles, teardown, input_ops, output_ops, resampler_ops, sink_ops, hf,
          Ledger.step, Op.acquires, Op.releases, CtxVar.resource, FrameVar.resource]
  | no_format filled dec h =>
    refine settles_after _ _ _ ?_ (settles_quit _ _ ?_)
    · rw [forall_keeps_iff]
      simp [input_ops, Op.keeps_handles, Op.releases]
    · simp [input_ops, Ledger.step, Op.acquires, Op.releases, CtxVar.resource]
  | no_encoder filled dec fmt h hfmt =>
    refine settles_after _ _ _ ?_ (settles_quit _ _ ?_)
    · rw [forall_keeps_iff]
      simp [input_ops, Op.keeps_handles, Op.releases]
    · simp [input_ops, Ledger.step, Op.acquires, Op.releases, CtxVar.resource]
  | _ =>
    refine settles_after _ _ _ ?_ (settles_die _ _ ?_)
    · rw [forall_keeps_iff]
      simp [List.all_append, sink_ops_all_keep, input_ops, output_ops, Op.keeps_handles,
        Op.releases]
    · simp [input_ops, output_ops, Ledger.step, Op.acquires, Op.releases, CtxVar.resource]

theorem live_of_acquired (r : Resource) (t : List Op) (l : Ledger)
    (hrel : ∀ op ∈ t, op.releases ≠ some r)
    (hacq : r ∈ l.live ∨ ∃ op ∈ t, op.acquires = some r) :
    r ∈ (t.foldl Ledger.step l).live := by
  induction t generalizing l with
  | nil =>
    rcases hacq with h | ⟨op, hop, -⟩
    · exact h
    · simp at hop
  | cons o rest ih =>
    simp only [List.foldl_cons]
    refine ih _ (fun op hop => hrel op (List.mem_cons_of_mem _ hop)) ?_
    have ho : o.releases ≠ some r := hrel o (List.mem_cons_self _ _)
    rcases hacq with h | ⟨op, hop, hacq⟩
    · left
      unfold Ledger.step
      cases hr : o.releases with
      | none => cases ha : o.acquires <;> simp [h]
      | some r' =>
        have hne : r ≠ r' := fun e => ho (by rw [hr, e])
        by_cases hin : r' ∈ l.live
        · cases ha : o.acquires <;> simp [hin, List.mem_erase_of_ne hne, h]
        · cases ha : o.acquires <;> simp [hin, h]
    · rcases List.mem_cons.mp hop with rfl | hop
      · left
        unfold Ledger.step
        simp [hacq]
      · exact Or.inr ⟨op, hop, hacq⟩

/-- C7 (as amended): on every run no handle is released twice or before it was
acquired; when main returns 0 every acquired handle has been released and the live set
is empty; when main returns anything else no teardown has run: no long-lived handle
was released (only adapted frames of completed iterations were), so every long-lived
handle acquired so far is still live at exit. -/
theorem release_discipline (fw : Framework) (argv : List String) :
    (ledger (main fw argv).trace).faults = 0 ∧
    ((main fw argv).exit = 0 → (ledger (main fw argv).trace).live = []) ∧
    ((main fw argv).exit ≠ 0 →
      (∀ op ∈ (main fw argv).trace, op.keeps_handles) ∧
      ∀ r : Resource, r ≠ .resampled_frame →
        (∃ op ∈ (main fw argv).trace, op.acquires = some r) →
        r ∈ (ledger (main fw argv).trace).live) := by
  obtain ⟨h1, h2, h3⟩ := settles_main fw argv
  refine ⟨h1, h2, fun he => ⟨h3 he, fun r hr hacq => ?_⟩⟩
  refine live_of_acquired r _ _ (fun op hop => ?_) (Or.inr hacq)
  rcases h3 he op hop with h | h
  · simp [h]
  · rw [h]
    intro e
    exact hr (Option.some.inj e).symm

/-- Witness of C7 (as amended): the sample run returns 0 with no live handle; the run
whose probe fails returns 1 with the input container still live. -/
theorem release_discipline_witness :
    ((main sample_framework sample_argv).exit = 0 ∧
      (ledger (main sample_framework sample_argv).trace).live = []) ∧
    ((main probe_failing_framework sample_argv).exit ≠ 0 ∧
      (∀ op ∈ (main probe_failing_framework sample_argv).trace, op.keeps_handles) ∧
      ∀ r : Resource, r ≠ .resampled_frame →
        (∃ op ∈ (main probe_failing_framework sample_argv).trace, op.acquires = some r) →
        r ∈ (ledger (main probe_failing_framework sample_argv).trace).live) :=
  ⟨⟨by decide, (release_discipline sample_framework sample_argv).2.1 (by decide)⟩,
   ⟨by decide, (release_discipline probe_failing_framework sample_argv).2.2 (by decide)⟩⟩

/-- Counterexample to C7 as stated: when avformat_find_stream_info fails, main returns 1
at line 60 while the input container it opened is still live. -/
theorem release_on_failure_counterexample :
    (main probe_failing_framework sample_argv).exit = 1 ∧
    (main probe_failing_framework sample_argv).trace =
      [.avformat_open_input "in.mp4" true, .avformat_find_stream_info false] ∧
    (ledger (main probe_failing_framework sample_argv).trace).live = [Resource.input_ctx] ∧
    (ledger (main probe_failing_framework sample_argv).trace).live ≠ [] := by
  decide

theorem transcode_head (fw : Framework) (ctx : Pipeline) (rs : List ReadOut) :
    ∃ next t, (transcode fw ctx rs).trace = Op.av_read_frame next :: t := by
  cases rs with
  | nil => exact ⟨none, _, rfl⟩
  | cons r rest => exact ⟨some r.pkt, _, rfl⟩

theorem teardown_no_read (ctx : Pipeline) (op : Op) (h : op ∈ (teardown ctx).trace) :
    op.is_read = false := by
  unfold teardown at h
  split at h
  · simp at h
    rcases h with rfl | rfl | rfl | rfl | rfl | rfl | rfl | rfl <;> rfl
  · simp at h
    rcases h with rfl | rfl | rfl | rfl | rfl | rfl | rfl <;> rfl

theorem frame_body_no_read (op : Op) (h : op.in_frame_body = true) : ¬ (op.is_read = true) := by
  cases op <;> simp_all [Op.in_frame_body, Op.is_read]

/-- In the read loop, a packet whose stream index is not the selected one is followed
by its release and by the next read. -/
theorem transcode_skips (fw : Framework) (ctx : Pipeline) (rs : List ReadOut)
    (pre post : List Op) (p : AVPacket)
    (h : (transcode fw ctx rs).trace = pre ++ Op.av_read_frame (some p) :: post)
    (hp : p.stream_index ≠ ctx.audio_stream_index) :
    ∃ next post', post = Op.av_packet_unref :: Op.av_read_frame next :: post' := by
  induction rs generalizing pre with
  | nil =>
    exfalso
    have hmem : Op.av_read_frame (some p) ∈ (transcode fw ctx []).trace := by rw [h]; simp
    simp only [transcode, call_trace, List.mem_cons] at hmem
    rcases hmem with hmem | hmem
    · simp at hmem
    · exact absurd (teardown_no_read _ _ hmem) (by simp [Op.is_read])
  | cons r rest ih =>
    simp only [transcode, call_trace] at h
    cases pre with
    | nil =>
      simp only [List.nil_append, List.cons.injEq, Op.av_read_frame.injEq,
        Option.some.injEq] at h
      obtain ⟨hpkt, hpost⟩ := h
      subst hpkt
      rw [if_neg hp] at hpost
      obtain ⟨next, t, ht⟩ := transcode_head fw ctx rest
      exact ⟨next, t, by rw [← hpost, call_trace, ht]⟩
    | cons a pre0 =>
      simp only [List.cons_append, List.cons.injEq] at h
      obtain ⟨-, h⟩ := h
      split at h
      · simp only [call_trace] at h
        obtain ⟨pre1, -, h⟩ := split_after (fun o => o.is_read = true)
          [Op.avcodec_send_packet r.pkt r.send_packet_ok] _ pre0 post _
          (by simp [Op.is_read]) rfl h
        cases hs : r.send_packet_ok
        · simp [hs] at h
        · simp only [hs, Bool.not_true, Bool.false_eq_true, if_false] at h
          rcases convert_frames_continues fw ctx r.frames
            (call .av_packet_unref (transcode fw ctx rest)) with ⟨B, hB, ht, -⟩ | ⟨-, hall⟩
          · rw [ht] at h
            obtain ⟨pre2, -, h⟩ := split_after (fun o => o.is_read = true) B _ pre1 post _
              (fun y hy => frame_body_no_read y (hB y hy)) rfl h
            simp only [call_trace] at h
            obtain ⟨pre3, -, h⟩ := split_after (fun o => o.is_read = true)
              [Op.av_packet_unref] _ pre2 post _ (by simp [Op.is_read]) rfl h
            exact ih pre3 h
          · have hmem : Op.av_read_frame (some p) ∈
                (convert_frames fw ctx r.frames
                  (call .av_packet_unref (transcode fw ctx rest))).trace := by
              rw [h]; simp
            exact absurd rfl (frame_body_no_read _ (hall _ hmem))
      · simp only [call_trace] at h
        obtain ⟨pre1, -, h⟩ := split_after (fun o => o.is_read = true)
          [Op.av_packet_unref] _ pre0 post _ (by simp [Op.is_read]) rfl h
        exact ih pre1 h

theorem setup_facts (op : Op) (h : op.in_setup = true) :
    op.is_packet_op = false ∧ op.is_trailer = false := by
  cases op <;> simp_all [Op.in_setup, Op.is_packet_op, Op.is_trailer]

theorem body_facts (op : Op) (h : op.in_body = true) :
    op.is_header = false ∧ op.is_trailer = false := by
  cases op <;> simp_all [Op.in_body, Op.in_frame_body, Op.is_header, Op.is_trailer]

theorem teardown_shape (ctx : Pipeline) :
    (teardown ctx).exit = 0 ∧
    ∃ T, (teardown ctx).trace = .av_write_trailer :: T ∧
      ∀ op ∈ T, op.is_packet_op = false ∧ op.is_trailer = false ∧ op.is_header = false := by
  unfold teardown
  split
  · refine ⟨rfl, _, rfl, ?_⟩
    intro op hop
    simp at hop
    rcases hop with rfl | rfl | rfl | rfl | rfl | rfl | rfl <;> exact ⟨rfl, rfl, rfl⟩
  · refine ⟨rfl, _, rfl, ?_⟩
    intro op hop
    simp at hop
    rcases hop with rfl | rfl | rfl | rfl | rfl | rfl <;> exact ⟨rfl, rfl, rfl⟩

theorem sink_ops_all_setup (oformat : AVOutputFormat) (name : String) (ok : Bool) :
    (sink_ops oformat name ok).all Op.in_setup = true := by
  unfold sink_ops
  split <;> rfl

theorem sink_ops_no_header (oformat : AVOutputFormat) (name : String) (ok : Bool) :
    (sink_ops oformat name ok).countP Op.is_header = 0 := by
  unfold sink_ops
  split <;> rfl

/-- Either main returns 1 during set-up, having made set-up calls only, the header
call at most once; or set-up completes, the header having been written once, and the
rest of the run is the read loop. -/
theorem main_shape (fw : Framework) (argv : List String) :
    ((main fw argv).exit = 1 ∧ (∀ op ∈ (main fw argv).trace, op.in_setup = true) ∧
      (main fw argv).trace.countP Op.is_header ≤ 1) ∨
    (∃ (S : List Op) (tb : AVRational) (ctx : Pipeline),
      (∀ op ∈ S, op.in_setup = true) ∧ S.countP Op.is_header = 1 ∧
      Op.avformat_write_header (some tb) ∈ S ∧
      ctx.audio_stream_index = find_audio_stream fw.streams 0 ∧
      main fw argv = Run.after S (transcode fw ctx fw.reads)) := by
  by_cases hlen : argv.length = 4
  swap
  · rw [main_of_bad_argc fw argv hlen]
    exact Or.inl ⟨rfl, by simp, by simp⟩
  have ho := main_outcome fw argv hlen
  generalize main fw argv = r at ho ⊢
  cases ho with
  | transcoding filled dec oformat fmt codec index fresh enc tb h hfmt hcodec =>
    refine Or.inr ⟨_, tb, _, ?_, ?_, ?_, rfl, rfl⟩
    · rw [← List.all_eq_true]
      simp [List.all_append, sink_ops_all_setup, input_ops, output_ops, resampler_ops,
        Op.in_setup]
    · simp [List.countP_append, List.countP_cons, sink_ops_no_header, input_ops, output_ops,
        resampler_ops, Op.is_header]
    · simp
  | _ =>
    refine Or.inl ⟨by simp, ?_, ?_⟩
    · rw [← List.all_eq_true]
      simp [List.all_append, sink_ops_all_setup, input_ops, output_ops, Op.in_setup]
    · simp [List.countP_append, List.countP_cons, sink_ops_no_header, input_ops, output_ops,
        Op.is_header]

theorem countP_zero_of_all_false (p : Op → Bool) (l : List Op)
    (h : ∀ op ∈ l, p op = false) : l.countP p = 0 :=
  List.countP_eq_zero.mpr (fun op hop => by simp [h op hop])

theorem pipeline_no_header (op : Op) (h : op.in_pipeline = true) : op.is_header = false := by
  cases op <;> simp_all [Op.in_pipeline, Op.is_header]

/-- C10: in the trace of every run the header call occurs at most once, no packet read,
decode, encode or packet write precedes it, and a header written with success precedes
every packet read, decode, encode and packet write; the trailer call occurs at most
once, only after av_read_frame has reported the end of the input, and no packet read,
decode, encode or packet write follows it; on every run that returns 0 the header
call and the trailer call each occur exactly once. -/
theorem header_trailer_order (fw : Framework) (argv : List String) :
    (main fw argv).trace.countP Op.is_header ≤ 1 ∧
    (∀ pre h post, (main fw argv).trace = pre ++ h :: post → h.is_header = true →
      ∀ op ∈ pre, op.is_packet_op = false) ∧
    (∀ pre op post, (main fw argv).trace = pre ++ op :: post → op.is_packet_op = true →
      ∃ tb, Op.avformat_write_header (some tb) ∈ pre) ∧
    (main fw argv).trace.countP Op.is_trailer ≤ 1 ∧
    (∀ pre post, (main fw argv).trace = pre ++ Op.av_write_trailer :: post →
      Op.av_read_frame none ∈ pre ∧ ∀ op ∈ post, op.is_packet_op = false) ∧
    ((main fw argv).exit = 0 →
      (main fw argv).trace.countP Op.is_header = 1 ∧
      (main fw argv).trace.countP Op.is_trailer = 1) := by
  rcases main_shape fw argv with ⟨he, hs, hc⟩ | ⟨S, tb, ctx, hS, hcS, htb, -, hm⟩
  · have hnt : ∀ op ∈ (main fw argv).trace, op.is_trailer = false :=
      fun op h => (setup_facts op (hs op h)).2
    have hnp : ∀ op ∈ (main fw argv).trace, op.is_packet_op = false :=
      fun op h => (setup_facts op (hs op h)).1
    refine ⟨hc, ?_, ?_, ?_, ?_, ?_⟩
    · intro pre h post ht _ op hop
      exact hnp op (by rw [ht]; exact List.mem_append_left _ hop)
    · intro pre op post ht hp
      have hmem : op ∈ (main fw argv).trace := by rw [ht]; simp
      rw [hnp op hmem] at hp
      exact absurd hp (by decide)
    · rw [countP_zero_of_all_false _ _ hnt]
      exact Nat.zero_le _
    · intro pre post ht
      have hmem : Op.av_write_trailer ∈ (main fw argv).trace := by rw [ht]; simp
      exact absurd (hnt _ hmem) (by decide)
    · intro h0
      rw [he] at h0
      exact absurd h0 (by decide)
  · have hSp : ∀ y ∈ S, ¬ (y.is_packet_op = true) :=
      fun y hy => by simp [(setup_facts y (hS y hy)).1]
    have hSt : ∀ y ∈ S, y.is_trailer = false := fun y hy => (setup_facts y (hS y hy)).2
    have hSt0 : S.countP Op.is_trailer = 0 := countP_zero_of_all_false _ _ hSt
    obtain ⟨hte, T, hT, hTf⟩ := teardown_shape ctx
    have hTh : T.countP Op.is_header = 0 :=
      countP_zero_of_all_false _ _ (fun op hop => (hTf op hop).2.2)
    have hTt : T.countP Op.is_trailer = 0 :=
      countP_zero_of_all_false _ _ (fun op hop => (hTf op hop).2.1)
    rw [hm]
    simp only [after_trace, after_exit]
    have ha : ∀ pre h post, S ++ (transcode fw ctx fw.reads).trace = pre ++ h :: post →
        h.is_header = true → ∀ op ∈ pre, op.is_packet_op = false := by
      intro pre h post ht hh op hop
      rcases List.append_eq_append_iff.mp ht with ⟨a', -, hL⟩ | ⟨c', hSc, -⟩
      · have hmem : h ∈ (transcode fw ctx fw.reads).trace := by rw [hL]; simp
        rw [pipeline_no_header h (transcode_in_pipeline _ _ _ _ hmem)] at hh
        exact absurd hh (by decide)
      · exact (setup_facts op (hS op (by rw [hSc]; exact List.mem_append_left _ hop))).1
    have hb : ∀ pre op post, S ++ (transcode fw ctx fw.reads).trace = pre ++ op :: post →
        op.is_packet_op = true → ∃ tb, Op.avformat_write_header (some tb) ∈ pre := by
      intro pre op post ht hp
      obtain ⟨pre', hpre, -⟩ :=
        split_after (fun o => o.is_packet_op = true) S _ pre post op hSp hp ht
      exact ⟨tb, by rw [hpre]; exact List.mem_append_left _ htb⟩
    rcases transcode_continues fw ctx fw.reads with ⟨B, hB, ht, hex⟩ | ⟨hex, hall⟩
    · have hBh : B.countP Op.is_header = 0 :=
        countP_zero_of_all_false _ _ (fun op hop => (body_facts op (hB op hop)).1)
      have hBt : B.countP Op.is_trailer = 0 :=
        countP_zero_of_all_false _ _ (fun op hop => (body_facts op (hB op hop)).2)
      have htr : (transcode fw ctx fw.reads).trace =
          B ++ Op.av_read_frame none :: Op.av_write_trailer :: T := by
        rw [ht]
        simp [hT]
      have hch : (S ++ (transcode fw ctx fw.reads).trace).countP Op.is_header = 1 := by
        rw [htr]
        simp [List.countP_append, List.countP_cons, hcS, hBh, hTh, Op.is_header]
      have hct : (S ++ (transcode fw ctx fw.reads).trace).countP Op.is_trailer = 1 := by
        rw [htr]
        simp [List.countP_append, List.countP_cons, hSt0, hBt, hTt, Op.is_trailer]
      refine ⟨le_of_eq hch, ha, hb, le_of_eq hct, ?_, fun _ => ⟨hch, hct⟩⟩
      intro pre post hsplit
      rw [htr] at hsplit
      have h2 : (S ++ B ++ [Op.av_read_frame none]) ++ Op.av_write_trailer :: T =
          pre ++ Op.av_write_trailer :: post := by simpa using hsplit
      have hA : ∀ y ∈ S ++ B ++ [Op.av_read_frame none], ¬ (y.is_trailer = true) := by
        intro y hy
        simp only [List.mem_append, List.mem_singleton] at hy
        rcases hy with (hy | hy) | rfl
        · simp [hSt y hy]
        · simp [(body_facts y (hB y hy)).2]
        · decide
      obtain ⟨hpre, hpost⟩ := split_unique (fun o => o.is_trailer = true) _ T pre post
        Op.av_write_trailer Op.av_write_trailer hA
        (fun y hy => by simp [(hTf y hy).2.1]) rfl h2
      subst hpre hpost
      exact ⟨by simp, fun op hop => (hTf op hop).1⟩
    · have hLh : (transcode fw ctx fw.reads).trace.countP Op.is_header = 0 :=
        countP_zero_of_all_false _ _ (fun op hop => (body_facts op (hall op hop)).1)
      have hLt : ∀ op ∈ (transcode fw ctx fw.reads).trace, op.is_trailer = false :=
        fun op hop => (body_facts op (hall op hop)).2
      refine ⟨?_, ha, hb, ?_, ?_, ?_⟩
      · simp [List.countP_append, hcS, hLh]
      · simp [List.countP_append, hSt0, countP_zero_of_all_false _ _ hLt]
      · intro pre post hsplit
        have hmem : Op.av_write_trailer ∈ S ++ (transcode fw ctx fw.reads).trace := by
          rw [hsplit]; simp
        rcases List.mem_append.mp hmem with h | h
        · exact absurd (hSt _ h) (by decide)
        · exact absurd (hLt _ h) (by decide)
      · intro h0
        rw [hex] at h0
        exact absurd h0 (by decide)

/-- Witness of C10 on the sample run, which returns 0: the header is call 15, the
first read is call 20, the trailer is call 42 of a trace of 50 calls. -/
theorem header_trailer_order_witness :
    ((main sample_framework sample_argv).trace =
        (main sample_framework sample_argv).trace.take 15 ++
          Op.avformat_write_header (some { num := 1, den := 1000 }) ::
          (main sample_framework sample_argv).trace.drop 16 ∧
      ∀ op ∈ (main sample_framework sample_argv).trace.take 15, op.is_packet_op = false) ∧
    ((main sample_framework sample_argv).trace =
        (main sample_framework sample_argv).trace.take 20 ++
          Op.av_read_frame (some sample_video_pkt) ::
          (main sample_framework sample_argv).trace.drop 21 ∧
      ∃ tb, Op.avformat_write_header (some tb) ∈
        (main sample_framework sample_argv).trace.take 20) ∧
    ((main sample_framework sample_argv).trace =
        (main sample_framework sample_argv).trace.take 42 ++
          Op.av_write_trailer :: (main sample_framework sample_argv).trace.drop 43 ∧
      Op.av_read_frame none ∈ (main sample_framework sample_argv).trace.take 42 ∧
      ∀ op ∈ (main sample_framework sample_argv).trace.drop 43, op.is_packet_op = false) ∧
    ((main sample_framework sample_argv).exit = 0 ∧
      (main sample_framework sample_argv).trace.countP Op.is_header = 1 ∧
      (main sample_framework sample_argv).trace.countP Op.is_trailer = 1) :=
  ⟨⟨by decide,
    (header_trailer_order sample_framework sample_argv).2.1
      ((main sample_framework sample_argv).trace.take 15)
      (Op.avformat_write_header (some { num := 1, den := 1000 }))
      ((main sample_framework sample_argv).trace.drop 16) (by decide) (by decide)⟩,
   ⟨by decide,
    (header_trailer_order sample_framework sample_argv).2.2.1
      ((main sample_framework sample_argv).trace.take 20)
      (Op.av_read_frame (some sample_video_pkt))
      ((main sample_framework sample_argv).trace.drop 21) (by decide) (by decide)⟩,
   ⟨by decide,
    (header_trailer_order sample_framework sample_argv).2.2.2.2.1
      ((main sample_framework sample_argv).trace.take 42)
      ((main sample_framework sample_argv).trace.drop 43) (by decide)⟩,
   ⟨by decide, (header_trailer_order sample_framework sample_argv).2.2.2.2.2 (by decide)⟩⟩

/-- C2: a packet is submitted to the decoder only if its stream index is the selected
audio_stream_index; a packet read with any other stream index is followed at once by
its release (av_packet_unref) and by the next av_read_frame, so it never reaches the
decoder and does not end the run. -/
theorem only_audio_packets_decoded (fw : Framework) (argv : List String) :
    (∀ p ok, Op.avcodec_send_packet p ok ∈ (main fw argv).trace →
      p.stream_index = find_audio_stream fw.streams 0) ∧
    (∀ pre p post, (main fw argv).trace = pre ++ Op.av_read_frame (some p) :: post →
      p.stream_index ≠ find_audio_stream fw.streams 0 →
      ∃ next post', post = Op.av_packet_unref :: Op.av_read_frame next :: post') := by
  rcases main_shape fw argv with ⟨-, hs, -⟩ | ⟨S, tb, ctx, hS, -, -, hidx, hm⟩
  · constructor
    · intro p ok hmem
      exact absurd (hs _ hmem) (by simp [Op.in_setup])
    · intro pre p post ht
      have hmem : Op.av_read_frame (some p) ∈ (main fw argv).trace := by rw [ht]; simp
      exact absurd (hs _ hmem) (by simp [Op.in_setup])
  · rw [hm, ← hidx]
    simp only [after_trace]
    constructor
    · intro p ok hmem
      rcases List.mem_append.mp hmem with h | h
      · exact absurd (hS _ h) (by simp [Op.in_setup])
      · exact transcode_loop_op _ _ _ _ h
    · intro pre p post ht hp
      obtain ⟨pre', -, h⟩ := split_after (fun o => o.is_read = true) S _ pre post _
        (fun y hy => by
          have := (setup_facts y (hS y hy)).1
          cases y <;> simp_all [Op.is_read, Op.is_packet_op]) rfl ht
      exact transcode_skips fw ctx fw.reads pre' post p h hp

/-- Witness of C2 on the sample run: the audio packet (stream 1) is submitted; the
video packet (stream 0), read first, is followed by its release and the next read. -/
theorem only_audio_packets_decoded_witness :
    (Op.avcodec_send_packet sample_audio_pkt true ∈
        (main sample_framework sample_argv).trace ∧
      sample_audio_pkt.stream_index = find_audio_stream sample_framework.streams 0) ∧
    ((main sample_framework sample_argv).trace =
        (main sample_framework sample_argv).trace.take 20 ++
          Op.av_read_frame (some sample_video_pkt) ::
          (main sample_framework sample_argv).trace.drop 21 ∧
      sample_video_pkt.stream_index ≠ find_audio_stream sample_framework.streams 0 ∧
      ∃ next post', (main sample_framework sample_argv).trace.drop 21 =
        Op.av_packet_unref :: Op.av_read_frame next :: post') :=
  ⟨⟨by decide,
    (only_audio_packets_decoded sample_framework sample_argv).1 sample_audio_pkt true
      (by decide)⟩,
   ⟨by decide, by decide,
    (only_audio_packets_decoded sample_framework sample_argv).2
      ((main sample_framework sample_argv).trace.take 20) sample_video_pkt
      ((main sample_framework sample_argv).trace.drop 21) (by decide) (by decide)⟩⟩

end AudioConvert
